import Mathlib

/-!
Verification development for the `lol_chatbot` repository.

This file gives a shallow embedding, in Lean 4, of the parts of the source
that the frozen claims are about:

* `src/intent_classifier.py` — `normalize_champion_name`;
* `src/data_retriever.py` — `DataRetriever.find_champion`; the other
  `DataRetriever` methods are abstracted as a record of lookup functions
  (`Retriever`), exactly as `SnapshotAnalyzer` receives a `data_retriever`
  instance and only calls its methods;
* `src/sparql_queries.py` — `SemanticQueryEngine.query`,
  `get_champions_by_cc_type`, `multi_criteria_champion_search`,
  `get_team_counter_coverage`, `get_team_synergy_score`, `recommend_pick`.
  The rdflib `Graph` is external to the core, so it is embedded two ways:
  as an abstract store of functions from query text to an `Except`-valued
  result (`Except.error` models a raised exception), and, for the
  operations whose claims are about actual RDF data, as a concrete triple
  structure (`RdfGraph`) whose query semantics is spelled out;
* `src/snapshot_analyzer.py` — the full analysis pipeline:
  `get_snapshot`, `get_user_player`, `get_allies`, `get_enemies`,
  `_get_lane_opponent`, `_analyze_enemy_composition`,
  `_estimate_spent_gold`, `_analyze_build_progress`,
  `_generate_detailed_item_recommendations`, `_get_immediate_purchases`,
  `analyze_item_recommendations`, `_analyze_lane_matchup`,
  `_generate_enemy_tips`, `_analyze_ally_synergies`,
  `_generate_teamfight_advice`, `analyze_counter_strategies`,
  `analyze_game_state`, `_generate_summary`, `full_analysis`.

Machine reals: the Python code computes a handful of `float` values
(`cs_per_minute`, `gold_per_minute`, `core_completion_percentage`,
`ap_ratio`/`ad_ratio`) that are used only for display or for threshold
comparisons with small integers.  Threshold comparisons are embedded as
the equivalent exact integer comparisons (`cs / minute >= 8` as
`8 * minute ≤ cs`, `len(ap)/total >= 0.6` as `3 * total ≤ 5 * len(ap)`);
display-only rounded values are omitted from the embedded result records
and each omission is noted at the definition it concerns.

Python dictionaries returned to the caller are embedded as structures; a
returned `{"error": msg}` dictionary is `PyResult.error msg`, and an
uncaught Python exception is `Except.error` at the outermost level.
-/

/-- ASCII lower-casing of one character, as Python `str.lower` acts on the
ASCII champion/item names this code handles. -/
def pyCharLower (c : Char) : Char :=
  if 65 ≤ c.toNat ∧ c.toNat ≤ 90 then Char.ofNat (c.toNat + 32) else c

/-- Python `s.lower()`. -/
def pyLower (s : String) : String := String.mk (s.data.map pyCharLower)

/-- Python `s.replace(a, "")` for a one-character pattern `a`. -/
def removeChar (a : Char) (s : String) : String :=
  String.mk (s.data.filter (fun c => c ≠ a))

/-- Python `s.replace(a, b)` for one-character pattern and replacement. -/
def replaceChar (a b : Char) (s : String) : String :=
  String.mk (s.data.map (fun c => if c = a then b else c))

/-- Python `needle in hay` on strings: substring containment. -/
def strContains (hay needle : String) : Bool :=
  decide (needle.data <:+: hay.data)

/-- Whitespace stripped by Python `str.strip()` (the characters occurring in
this data set). -/
def isPySpace (c : Char) : Bool := c = ' ' || c = '\t' || c = '\n' || c = '\r'

/-- Python `s.strip()`. -/
def pyStrip (s : String) : String :=
  String.mk (((s.data.dropWhile isPySpace).reverse.dropWhile isPySpace).reverse)

/-- Python `name.lower().replace(" ", "")`, the normalization used by the
snapshot analyzer for counter/synergy list matching. -/
def pyNormNoSpace (s : String) : String := removeChar ' ' (pyLower s)

/-- The alias table of `normalize_champion_name`
(`src/intent_classifier.py`, lines 103-143). -/
def champion_aliases : List (String × String) :=
  [("mundo", "dr_mundo"), ("dr mundo", "dr_mundo"), ("doctor mundo", "dr_mundo"),
   ("lee sin", "lee_sin"), ("lee", "lee_sin"),
   ("jarvan", "jarvan_iv"), ("jarvan iv", "jarvan_iv"), ("j4", "jarvan_iv"),
   ("tf", "twisted_fate"), ("twisted fate", "twisted_fate"),
   ("mf", "miss_fortune"), ("miss fortune", "miss_fortune"),
   ("asol", "aurelion_sol"), ("aurelion", "aurelion_sol"), ("aurelion sol", "aurelion_sol"),
   ("cho", "chogath"), ("cho'gath", "chogath"),
   ("kog'maw", "kogmaw"), ("kog", "kogmaw"),
   ("kha'zix", "khazix"), ("kha", "khazix"),
   ("bel'veth", "belveth"), ("bel veth", "belveth"),
   ("kai'sa", "kaisa"), ("k'sante", "ksante"), ("rek'sai", "reksai"), ("vel'koz", "velkoz"),
   ("xin zhao", "xin_zhao"), ("xin", "xin_zhao"),
   ("master yi", "master_yi"), ("yi", "master_yi"),
   ("tahm kench", "tahm_kench"), ("tahm", "tahm_kench"),
   ("renata glasc", "renata_glasc"), ("renata", "renata_glasc"),
   ("nunu", "nunu_willump"), ("nunu & willump", "nunu_willump"),
   ("wukong", "wukong"), ("monkey king", "wukong")]

/-- `normalize_champion_name` (`src/intent_classifier.py`, lines 92-149):
empty input is returned as is; otherwise the input is lower-cased and
stripped, looked up in the alias table, and on a miss spaces become
underscores and apostrophes and periods are dropped. -/
def normalize_champion_name (name : String) : String :=
  if name = "" then name
  else
    let n := pyStrip (pyLower name)
    match champion_aliases.lookup n with
    | some a => a
    | none => removeChar '.' (removeChar '\'' (replaceChar ' ' '_' n))

/-- A champion record as far as `find_champion` inspects it: the `"name"`
display-name entry of the parsed champion dictionary.  The remaining
entries (skills, stats, relationship lists) are reached only through the
`DataRetriever` methods, which this development abstracts as a `Retriever`
record below. -/
structure Champ where
  name : String
deriving DecidableEq, Repr

/-- `DataRetriever.find_champion` (`src/data_retriever.py`, lines 39-54)
over the champion dictionary in its iteration order: normalize the query,
try a direct key lookup, then scan entries in order accepting the first
whose key is in bidirectional substring relation with the normalized name
or whose display name matches the raw query case-insensitively. -/
def find_champion (champions : List (String × Champ)) (name : String) : Option Champ :=
  let normalized := normalize_champion_name name
  match champions.find? (fun p => p.1 == normalized) with
  | some p => some p.2
  | none =>
    champions.findSome? (fun p =>
      if strContains p.1 normalized || strContains normalized p.1 then some p.2
      else if pyLower p.2.name == pyLower name then some p.2
      else none)

/-- One player record of a snapshot (`game_snapshots.json` entry).  The
`skills` sub-dictionary is carried through the analyzer verbatim and never
inspected, so it is omitted here. -/
structure Player where
  participant_id : Nat
  champion : String
  team : String
  level : Nat
  total_gold : Int
  cs : Nat
  items : List String
deriving DecidableEq, Repr

/-- A match snapshot as the analyzer reads it. -/
structure Snapshot where
  match_id : String
  minute : Nat
  blue_team_gold : Int
  red_team_gold : Int
  gold_diff : Int
  players : List Player
deriving DecidableEq, Repr

/-- `ROLE_POSITIONS` (`src/snapshot_analyzer.py`, lines 21-24), as the
partial map that Python `dict.get` exposes. -/
def rolePosition (participant_id : Nat) : Option String :=
  match participant_id with
  | 1 => some "Top"
  | 2 => some "Jungle"
  | 3 => some "Mid"
  | 4 => some "ADC"
  | 5 => some "Support"
  | 6 => some "Top"
  | 7 => some "Jungle"
  | 8 => some "Mid"
  | 9 => some "ADC"
  | 10 => some "Support"
  | _ => none

/-- `SnapshotAnalyzer.get_snapshot` (`src/snapshot_analyzer.py`, lines
52-56): an in-range index returns that snapshot, everything else falls
back to the first snapshot when one exists and `None` otherwise. -/
def get_snapshot (snapshots : List Snapshot) (index : Int) : Option Snapshot :=
  if snapshots ≠ [] ∧ 0 ≤ index ∧ index < (snapshots.length : Int) then
    snapshots.get? index.toNat
  else snapshots.head?

/-- `SnapshotAnalyzer.get_user_player` (lines 81-86): the first player with
`participant_id == 1`. -/
def get_user_player (s : Snapshot) : Option Player :=
  s.players.find? (fun p => p.participant_id == 1)

/-- `SnapshotAnalyzer.get_allies` (lines 88-98). -/
def get_allies (s : Snapshot) : List Player :=
  match get_user_player s with
  | none => []
  | some user =>
    s.players.filter (fun p => p.team == user.team && p.participant_id != 1)

/-- `SnapshotAnalyzer.get_enemies` (lines 100-106). -/
def get_enemies (s : Snapshot) : List Player :=
  match get_user_player s with
  | none => []
  | some user => s.players.filter (fun p => p.team != user.team)

/-- `SnapshotAnalyzer._get_lane_opponent` (lines 108-121): the first enemy
whose `ROLE_POSITIONS` entry equals the user's (default "Top" for the
user, "" for an enemy with an unmapped id), else the first enemy. -/
def get_lane_opponent (s : Snapshot) : Option Player :=
  match get_user_player s with
  | none => none
  | some user =>
    let user_position := (rolePosition user.participant_id).getD "Top"
    let enemies := get_enemies s
    match enemies.find? (fun e => (rolePosition e.participant_id).getD "" == user_position) with
    | some e => some e
    | none => enemies.head?

/-- The `moba` namespace IRI bound by `sparql_queries.py` (line 15). -/
def mobaNS : String :=
  "http://www.semanticweb.org/gizemyilmaz/ontologies/moba/ontology#"

/-- A SPARQL `SELECT` result row, as the binding function
`var ↦ str(row[var])` that `SemanticQueryEngine.query` turns each row
into. -/
def SparqlRow : Type := String → String

/-- The rdflib graph as `SemanticQueryEngine.query` consumes it for
`SELECT` queries: running a query either yields rows or raises
(`Except.error`).  `SemanticQueryEngine` itself is stateless apart from
the `last_queries` debug log, which does not influence any result and is
not modelled. -/
structure SelectStore where
  select : String → Except String (List SparqlRow)

/-- `SemanticQueryEngine.query` (`src/sparql_queries.py`, lines 69-85):
the `try`/`except` turns any execution failure into an empty result
list. -/
def engineQuery (st : SelectStore) (q : String) : List SparqlRow :=
  match st.select q with
  | Except.ok rows => rows
  | Except.error _ => []

/-- The query text built by `get_champions_by_cc_type` (lines 100-113). -/
def cc_query (cc_types : List String) : String :=
  let cc_patterns := String.intercalate "\n" (cc_types.map (fun cc =>
    "    ?champion moba:hasCrowdControl moba:" ++ cc ++ "CC ."))
  "\n        PREFIX moba: <" ++ mobaNS ++ ">\n        SELECT DISTINCT ?name WHERE \x7b\n            ?champion moba:heroName ?name .\n            " ++ cc_patterns ++ "\n        \x7d\n        ORDER BY ?name\n        "

/-- `SemanticQueryEngine.get_champions_by_cc_type` (lines 87-116). -/
def get_champions_by_cc_type (st : SelectStore) (cc_types : List String) : List String :=
  if cc_types.isEmpty then []
  else (engineQuery st (cc_query cc_types)).map (fun row => row "name")

/-- The pattern list assembled by `multi_criteria_champion_search`
(lines 267-309).  Python guards each group with `if group:`; a `None` or
empty group contributes no patterns, which iterating `group.getD []`
reproduces exactly, and an empty-string `damage_type` is falsy. -/
def multi_criteria_patterns
    (roles lanes cc_types effects playstyles power_curves win_conditions : Option (List String))
    (damage_type : Option String) : List String :=
  ((roles.getD []).map (fun role => "?champion moba:playsRole moba:" ++ role ++ " ."))
  ++ ((lanes.getD []).map (fun lane => "?champion moba:typicalLane moba:" ++ lane ++ " ."))
  ++ ((cc_types.getD []).map (fun cc => "?champion moba:hasCrowdControl moba:" ++ cc ++ "CC ."))
  ++ ((effects.getD []).map (fun eff => "?champion moba:hasAbilityEffect moba:" ++ eff ++ "Effect ."))
  ++ ((playstyles.getD []).map (fun sty => "?champion moba:hasPlaystyle moba:" ++ sty ++ "Playstyle ."))
  ++ ((power_curves.getD []).map (fun curve => "?champion moba:hasPowerSpike moba:" ++ curve ++ "PowerSpike ."))
  ++ ((win_conditions.getD []).map (fun cond => "?champion moba:hasWinCondition moba:" ++ cond ++ "WinCondition ."))
  ++ (match damage_type with
      | some d => if d = "" then [] else ["?champion moba:dealsDamageType moba:" ++ d ++ " ."]
      | none => [])

/-- The query text built by `multi_criteria_champion_search`
(lines 311-320). -/
def multi_criteria_query (patterns : List String) : String :=
  "\n        PREFIX moba: <" ++ mobaNS ++ ">\n        SELECT DISTINCT ?name WHERE \x7b\n            ?champion moba:heroName ?name .\n            " ++ String.intercalate "\n            " patterns ++ "\n        \x7d\n        ORDER BY ?name\n        "

/-- `SemanticQueryEngine.multi_criteria_champion_search` (lines 251-323):
with no pattern at all the function returns `[]` before consulting the
store. -/
def multi_criteria_champion_search (st : SelectStore)
    (roles lanes cc_types effects playstyles power_curves win_conditions : Option (List String))
    (damage_type : Option String) : List String :=
  let patterns := multi_criteria_patterns roles lanes cc_types effects playstyles
    power_curves win_conditions damage_type
  if patterns.isEmpty then []
  else (engineQuery st (multi_criteria_query patterns)).map (fun row => row "name")

/-- The two `ASK` templates of `get_team_synergy_score` (lines 378-404),
abstracted as functions of the champion-name pair interpolated into the
query text.  These calls go through `self.graph.query(...).askAnswer`
directly, with no `try`/`except`, so a raised exception
(`Except.error`) is the caller's problem. -/
structure SynergyAsk where
  askStrong : String → String → Except String Bool
  askNormal : String → String → Except String Bool

/-- The pair enumeration `for i, champ1 in enumerate(team)` /
`for champ2 in team[i+1:]` of `get_team_synergy_score` (lines 375-376). -/
def pairsOf : List String → List (String × String)
  | [] => []
  | c :: rest => rest.map (fun c2 => (c, c2)) ++ pairsOf rest

/-- The record `get_team_synergy_score` returns (lines 408-412). -/
structure SynergyScore where
  synergy_pairs : List (String × String × String)
  total_score : Nat
  max_possible : Nat
deriving DecidableEq, Repr

/-- The pair loop of `get_team_synergy_score` (lines 375-406): strong
synergy first (+3), else normal (+1); an exception from either `ASK`
aborts the whole loop uncaught. -/
def synergyFold (st : SynergyAsk) :
    List (String × String) → List (String × String × String) → Nat →
    Except String (List (String × String × String) × Nat)
  | [], ps, total => Except.ok (ps, total)
  | (c1, c2) :: rest, ps, total =>
    match st.askStrong c1 c2 with
    | Except.error e => Except.error e
    | Except.ok strong =>
      if strong then synergyFold st rest (ps ++ [(c1, c2, "strong")]) (total + 3)
      else
        match st.askNormal c1 c2 with
        | Except.error e => Except.error e
        | Except.ok normal =>
          if normal then synergyFold st rest (ps ++ [(c1, c2, "normal")]) (total + 1)
          else synergyFold st rest ps total

/-- `SemanticQueryEngine.get_team_synergy_score` (lines 366-412). -/
def get_team_synergy_score (st : SynergyAsk) (team_champions : List String) :
    Except String SynergyScore :=
  match synergyFold st (pairsOf team_champions) [] 0 with
  | Except.error e => Except.error e
  | Except.ok (ps, total) =>
    Except.ok ⟨ps, total, team_champions.length * (team_champions.length - 1) / 2 * 3⟩

/-- The RDF data the synergy/counter queries range over: `heroName`
literals keyed by subject node, and the `strongSynergyWith`,
`synergyWith` and `counteredBy` edges between nodes. -/
structure RdfGraph where
  heroName : List (Nat × String)
  strongSynergyWith : List (Nat × Nat)
  synergyWith : List (Nat × Nat)
  counteredBy : List (Nat × Nat)
deriving Repr

/-- Semantics on `RdfGraph` of the `ASK` pattern
`?c1 moba:heroName "c1" . ?c2 moba:heroName "c2" . { ?c1 R ?c2 } UNION
{ ?c2 R ?c1 }` used for both synergy tiers (lines 380-387 and
396-402). -/
def askEitherDir (names : List (Nat × String)) (edges : List (Nat × Nat))
    (c1 c2 : String) : Bool :=
  names.any (fun p1 => p1.2 == c1 && names.any (fun p2 => p2.2 == c2 &&
    (edges.contains (p1.1, p2.1) || edges.contains (p2.1, p1.1))))

/-- The engine's synergy `ASK`s evaluated against concrete RDF data: query
execution on a loaded graph returns a boolean and raises nothing. -/
def graphSynergyAsk (g : RdfGraph) : SynergyAsk where
  askStrong := fun c1 c2 => Except.ok (askEitherDir g.heroName g.strongSynergyWith c1 c2)
  askNormal := fun c1 c2 => Except.ok (askEitherDir g.heroName g.synergyWith c1 c2)

/-- First-occurrence deduplication, the order `SELECT DISTINCT` presents
rows in for the per-enemy counter query. -/
def dedupStrAux (seen : List String) : List String → List String
  | [] => []
  | x :: xs => if x ∈ seen then dedupStrAux seen xs else x :: dedupStrAux (x :: seen) xs

/-- First-occurrence deduplication of a name list. -/
def dedupStr (l : List String) : List String := dedupStrAux [] l

/-- Semantics on `RdfGraph` of the per-enemy `SELECT DISTINCT
?counter_name` query of `get_team_counter_coverage` (lines 341-349):
subjects whose `heroName` equals the enemy name case-insensitively, their
`counteredBy` successors, and those successors' names, distinct. -/
def countersOfGraph (g : RdfGraph) (enemy : String) : List String :=
  dedupStr ((g.heroName.filter (fun p => pyLower p.2 == pyLower enemy)).flatMap (fun p =>
    (g.counteredBy.filter (fun e => e.1 == p.1)).flatMap (fun e =>
      (g.heroName.filter (fun q => q.1 == e.2)).map (fun q => q.2))))

/-- The accumulation step of `get_team_counter_coverage` (lines 353-357):
append the enemy to the counter champion's list, creating the entry at
the end of the (insertion-ordered) dictionary when absent. -/
def addCover (acc : List (String × List String)) (counter_name enemy : String) :
    List (String × List String) :=
  if acc.any (fun p => p.1 == counter_name) then
    acc.map (fun p => if p.1 == counter_name then (p.1, p.2 ++ [enemy]) else p)
  else acc ++ [(counter_name, [enemy])]

/-- Descending order on coverage-list length, the key of the final
`sorted(..., key=lambda x: len(x[1]), reverse=True)` (lines 360-364). -/
def covGe (a b : String × List String) : Prop := b.2.length ≤ a.2.length

instance (a b : String × List String) : Decidable (covGe a b) :=
  inferInstanceAs (Decidable (b.2.length ≤ a.2.length))

instance : IsTotal (String × List String) covGe :=
  ⟨fun a b => Nat.le_total b.2.length a.2.length⟩

instance : IsTrans (String × List String) covGe :=
  ⟨fun _ _ _ h1 h2 => Nat.le_trans h2 h1⟩

/-- `SemanticQueryEngine.get_team_counter_coverage` (lines 325-364),
parameterized by the per-enemy counter lookup `countersOf` — in the
source, `self.query` applied to the per-enemy query, whose `try`/`except`
already guarantees a plain list.  Python's stable `sorted` with a
reversed key is `List.insertionSort` by `covGe`. -/
def get_team_counter_coverage (countersOf : String → List String)
    (enemy_champions : List String) : List (String × List String) :=
  let counter_coverage := enemy_champions.foldl (fun acc enemy =>
    (countersOf enemy).foldl (fun a cn => addCover a cn enemy) acc) []
  List.insertionSort covGe counter_coverage

/-- The store interface `recommend_pick` consumes: the lane `SELECT` goes
through `self.query` (caught), while the counter, synergy and playstyle
`ASK`s (lines 451-496) run on `self.graph.query` directly, uncaught, and
are abstracted as functions of the interpolated names. -/
structure RecommendStore where
  select : String → Except String (List SparqlRow)
  askCounter : String → String → Except String Bool
  askSynergy : String → String → Except String Bool
  askPlaystyle : String → String → Except String Bool

/-- The lane query text of `recommend_pick` (lines 436-442). -/
def lane_query (lane : String) : String :=
  "\n        PREFIX moba: <" ++ mobaNS ++ ">\n        SELECT ?name WHERE \x7b\n            ?champion moba:heroName ?name .\n            ?champion moba:typicalLane moba:" ++ lane ++ " .\n        \x7d\n        "

/-- `self.query` as `recommend_pick` uses it for the lane candidates. -/
def engineQueryR (st : RecommendStore) (q : String) : List SparqlRow :=
  match st.select q with
  | Except.ok rows => rows
  | Except.error _ => []

/-- One candidate record of `recommend_pick` (lines 501-505). -/
structure PickRec where
  champion : String
  score : Nat
  reasons : List String
deriving DecidableEq, Repr

/-- Descending score order for the final candidate sort (line 508). -/
def pickGe (a b : PickRec) : Prop := b.score ≤ a.score

instance (a b : PickRec) : Decidable (pickGe a b) :=
  inferInstanceAs (Decidable (b.score ≤ a.score))

/-- The ally-synergy loop of `recommend_pick` (lines 466-484): +2 and a
reason per ally with a synergy `ASK` answering true; an exception
propagates. -/
def pickAllyFold (st : RecommendStore) (champ : String) :
    List String → Nat × List String → Except String (Nat × List String)
  | [], acc => Except.ok acc
  | ally :: rest, acc =>
    match st.askSynergy champ ally with
    | Except.error e => Except.error e
    | Except.ok b =>
      pickAllyFold st champ rest
        (if b then (acc.1 + 2, acc.2 ++ ["Synergizes with " ++ ally]) else acc)

/-- The playstyle loop of `recommend_pick` (lines 487-498): +1 and a
reason per matching playstyle `ASK`. -/
def pickStyleFold (st : RecommendStore) (champ : String) :
    List String → Nat × List String → Except String (Nat × List String)
  | [], acc => Except.ok acc
  | style :: rest, acc =>
    match st.askPlaystyle champ style with
    | Except.error e => Except.error e
    | Except.ok b =>
      pickStyleFold st champ rest
        (if b then (acc.1 + 1, acc.2 ++ ["Has " ++ style ++ " playstyle"]) else acc)

/-- The per-candidate scoring of `recommend_pick` (lines 445-505) for one
lane champion.  `if enemy_champion:` treats `None` and `""` as absent;
`if ally_champions:`/`if preferred_playstyles:` likewise skip, which
folding the empty list reproduces. -/
def pickScore (st : RecommendStore) (enemy_champion : Option String)
    (ally_champions preferred_playstyles : List String) (champ : String) :
    Except String (Nat × List String) :=
  let acc0 : Nat × List String := (0, [])
  let step1 : Except String (Nat × List String) :=
    match enemy_champion with
    | none => Except.ok acc0
    | some enemy =>
      if enemy = "" then Except.ok acc0
      else
        match st.askCounter champ enemy with
        | Except.error e => Except.error e
        | Except.ok b =>
          Except.ok (if b then (acc0.1 + 5, acc0.2 ++ ["Counters " ++ enemy]) else acc0)
  match step1 with
  | Except.error e => Except.error e
  | Except.ok acc1 =>
    match pickAllyFold st champ ally_champions acc1 with
    | Except.error e => Except.error e
    | Except.ok acc2 => pickStyleFold st champ preferred_playstyles acc2

/-- The candidate loop of `recommend_pick` over the lane champions,
keeping only positive scores in encounter order. -/
def pickCandidates (st : RecommendStore) (enemy_champion : Option String)
    (ally_champions preferred_playstyles : List String) :
    List String → List PickRec → Except String (List PickRec)
  | [], cands => Except.ok cands
  | champ :: rest, cands =>
    match pickScore st enemy_champion ally_champions preferred_playstyles champ with
    | Except.error e => Except.error e
    | Except.ok acc =>
      pickCandidates st enemy_champion ally_champions preferred_playstyles rest
        (if acc.1 > 0 then cands ++ [⟨champ, acc.1, acc.2⟩] else cands)

/-- `SemanticQueryEngine.recommend_pick` (lines 414-509): lane candidates
from a caught `SELECT`, scoring through uncaught `ASK`s, stable
descending sort by score, top 10. -/
def recommend_pick (st : RecommendStore) (lane : String)
    (enemy_champion : Option String) (ally_champions : Option (List String))
    (preferred_playstyles : Option (List String)) : Except String (List PickRec) :=
  let lane_champs := (engineQueryR st (lane_query lane)).map (fun row => row "name")
  match pickCandidates st enemy_champion (ally_champions.getD [])
      (preferred_playstyles.getD []) lane_champs [] with
  | Except.error e => Except.error e
  | Except.ok candidates => Except.ok ((List.insertionSort pickGe candidates).take 10)

/-- A Python value returned to the caller: either the substantive payload
or an `{"error": msg}` dictionary. -/
inductive PyResult (α : Type) where
  | error (msg : String)
  | ok (val : α)
deriving DecidableEq, Repr

/-- A champion-info dictionary as the analyzer reads it: the fields of
`DataRetriever.get_champion_info`'s success dictionary that
`snapshot_analyzer.py` accesses, with `str(value)` string fields.
`name_field` is the value of the `"name"` key — absent (`none`) on the
success dictionary (whose display name sits under `"champion"`), present
on `_get_champion_details`'s fallback dictionary.  `repr_has_heal` stands
for the test `"heal" in str(champ_info).lower()` (line 435), a substring
scan over the dictionary's repr. -/
structure ChampDetails where
  name_field : Option String
  hero_type : String
  damage_type : String
  roles : List String
  is_ranged : Bool
  repr_has_heal : Bool
deriving DecidableEq, Repr

/-- `DataRetriever.get_build`'s success payload (lines 500-519 of
`src/data_retriever.py`). -/
structure BuildInfo where
  core_items : List String
  recommended_items : List String
  situational_items : List String
deriving DecidableEq, Repr

/-- `DataRetriever.get_item_info`'s success payload, restricted to the
`gold_cost` field — the only one the analyzer's arithmetic reads (the
`stats` dictionary is copied into one recommendation verbatim and never
inspected, and `total_cost` is not a key of this dictionary, so
`item_info.get("gold_cost") or item_info.get("total_cost", 0)` is
`gold_cost` when truthy and `0` when `None` or `0`). -/
structure ItemInfo where
  gold_cost : Option Int
deriving DecidableEq, Repr

/-- `DataRetriever.get_counters(name, "countered_by")`'s success payload
restricted to the two lists the analyzer reads. -/
structure CounterLists where
  hard_countered_by : List String
  countered_by : List String
deriving DecidableEq, Repr

/-- `DataRetriever.get_synergies`'s success payload restricted to the two
lists the analyzer reads. -/
structure SynergyLists where
  strong_synergy : List String
  synergy : List String
deriving DecidableEq, Repr

/-- The `data_retriever` instance handed to `SnapshotAnalyzer.__init__`,
abstracted as the record of the lookups the analyzer performs.  `none`
models the method returning its `{"error": ...}` dictionary (each use
site reads the error dictionary only through `.get` with a default, which
the `getD` at the use site reproduces). -/
structure Retriever where
  champion_info : String → Option ChampDetails
  build : String → Option BuildInfo
  item_info : String → Option ItemInfo
  counters_countered_by : String → Option CounterLists
  synergies : String → Option SynergyLists

/-- `SnapshotAnalyzer._get_champion_details` (lines 123-128): the info
dictionary, or the fallback `{"name": name, "roles": [], "damage_type":
"Unknown"}` — whose missing `hero_type`/`is_ranged` keys read as falsy
`None`, and whose repr contains "heal" only if the champion name does. -/
def champDetails (r : Retriever) (champion_name : String) : ChampDetails :=
  match r.champion_info champion_name with
  | some info => info
  | none =>
    { name_field := some champion_name, hero_type := "", damage_type := "Unknown",
      roles := [], is_ranged := false,
      repr_has_heal := strContains (pyLower champion_name) "heal" }

/-- The `cs_rating` classification of `_analyze_player_performance`
(lines 136-147), with `cs / minute >= k` embedded as the exact integer
comparison `k * minute ≤ cs` (`minute = 0` gives rate 0). -/
def csRating (cs minute : Nat) : String :=
  if minute = 0 then "Below Average"
  else if 8 * minute ≤ cs then "Excellent"
  else if 6 * minute ≤ cs then "Good"
  else if 4 * minute ≤ cs then "Average"
  else "Below Average"

/-- One entry of the `threats` list of `_analyze_enemy_composition`
(lines 320-328). -/
structure Threat where
  champion : String
  level : Nat
  gold : Int
  items : List String
  threat_level : String
  position : String
deriving DecidableEq, Repr

/-- The threat classification of `_analyze_enemy_composition` (lines
313-318): level ≥ 10 or gold > 4500 is High, else level ≥ 8 or gold >
3500 is Medium, else no threat entry. -/
def threatOf (e : Player) : Option Threat :=
  if e.level ≥ 10 || e.total_gold > 4500 then
    some ⟨e.champion, e.level, e.total_gold, e.items, "High", (rolePosition e.participant_id).getD "Unknown"⟩
  else if e.level ≥ 8 || e.total_gold > 3500 then
    some ⟨e.champion, e.level, e.total_gold, e.items, "Medium", (rolePosition e.participant_id).getD "Unknown"⟩
  else none

/-- The AP-side categorization test of `_analyze_enemy_composition`
(line 300): known champion with "Magic" in its damage type or "Mage" in
its hero type. -/
def isApEnemy (r : Retriever) (e : Player) : Bool :=
  match r.champion_info e.champion with
  | some info => strContains info.damage_type "Magic" || strContains info.hero_type "Mage"
  | none => false

/-- The AD-side categorization test (line 303, the `elif`): known, not
AP-categorized, and "Physical" or "Attack" in its damage type. -/
def isAdEnemy (r : Retriever) (e : Player) : Bool :=
  match r.champion_info e.champion with
  | some info =>
    !(strContains info.damage_type "Magic" || strContains info.hero_type "Mage") &&
      (strContains info.damage_type "Physical" || strContains info.damage_type "Attack")
  | none => false

/-- The tank test (line 306): "Tank" in hero type or "TankRole" in the
repr of the roles list (which, for these letter-only tags, is containment
in some element). -/
def isTankEnemy (r : Retriever) (e : Player) : Bool :=
  match r.champion_info e.champion with
  | some info => strContains info.hero_type "Tank" || info.roles.any (fun ro => strContains ro "TankRole")
  | none => false

/-- The assassin test (line 310). -/
def isAssassinEnemy (r : Retriever) (e : Player) : Bool :=
  match r.champion_info e.champion with
  | some info => strContains info.hero_type "Assassin" || info.roles.any (fun ro => strContains ro "AssassinRole")
  | none => false

/-- Descending gold order for the threat sort (line 352). -/
def threatGe (a b : Threat) : Prop := b.gold ≤ a.gold

instance (a b : Threat) : Decidable (threatGe a b) :=
  inferInstanceAs (Decidable (b.gold ≤ a.gold))

/-- The record `_analyze_enemy_composition` returns (lines 342-354). -/
structure EnemyAnalysis where
  damage_profile : String
  ap_heavy : Bool
  ad_heavy : Bool
  ap_champions : List String
  ad_champions : List String
  tanks : List String
  assassins : List String
  has_assassins : Bool
  has_tanks : Bool
  threats : List Threat
  primary_threat : Option Threat
deriving DecidableEq, Repr

/-- `SnapshotAnalyzer._analyze_enemy_composition` (lines 278-354).  The
ratio tests `ap_ratio >= 0.6` are embedded as the exact rational
comparison `3 * total ≤ 5 * count`, which agrees with the float
evaluation for viable team sizes; note `primary_threat` is the head of
the threat list in enemy order, while the `threats` field is the
gold-sorted copy. -/
def analyze_enemy_composition (r : Retriever) (enemies : List Player) : EnemyAnalysis :=
  let ap_champions := (enemies.filter (isApEnemy r)).map (fun e => e.champion)
  let ad_champions := (enemies.filter (isAdEnemy r)).map (fun e => e.champion)
  let tanks := (enemies.filter (isTankEnemy r)).map (fun e => e.champion)
  let assassins := (enemies.filter (isAssassinEnemy r)).map (fun e => e.champion)
  let threats := enemies.filterMap threatOf
  let total_champs := enemies.length
  let damage_profile :=
    if total_champs ≠ 0 ∧ 3 * total_champs ≤ 5 * ap_champions.length then
      "AP Heavy - Consider Magic Resist"
    else if total_champs ≠ 0 ∧ 3 * total_champs ≤ 5 * ad_champions.length then
      "AD Heavy - Consider Armor"
    else "Mixed Damage - Build balanced resistances"
  { damage_profile,
    ap_heavy := ap_champions.length ≥ 3,
    ad_heavy := ad_champions.length ≥ 3,
    ap_champions, ad_champions, tanks, assassins,
    has_assassins := assassins.length > 0,
    has_tanks := tanks.length > 0,
    threats := List.insertionSort threatGe threats,
    primary_threat := threats.head? }

/-- `SnapshotAnalyzer._estimate_spent_gold` (lines 356-365): sum the known
gold costs of the current items (an unknown item, or a `None`/zero cost,
contributes 0). -/
def estimate_spent_gold (r : Retriever) (items : List String) : Int :=
  items.foldl (fun total item_name =>
    match r.item_info item_name with
    | some info => total + info.gold_cost.getD 0
    | none => total) 0

/-- The boots test shared by `_analyze_build_progress` (lines 260-261) and
`_generate_detailed_item_recommendations` (lines 381-382). -/
def hasBootsCheck (current_items : List String) : Bool :=
  current_items.any (fun i =>
    strContains (pyLower i) "boots" || strContains (pyLower i) "greaves" ||
    strContains (pyLower i) "steelcaps" || strContains (pyLower i) "treads" ||
    strContains (pyLower i) "shoes")

/-- The bidirectional substring ownership test of `_analyze_build_progress`
(line 254) and `_generate_detailed_item_recommendations` (line 408): the
core item counts as owned when its lowered name contains or is contained
in some current item's lowered name. -/
def ownsCoreItem (current_items_lower : List String) (item : String) : Bool :=
  current_items_lower.any (fun ci =>
    strContains ci (pyLower item) || strContains (pyLower item) ci)

/-- The starter-item markers of `_analyze_build_progress` (lines 264-265). -/
def starter_items : List String :=
  ["doran", "cull", "tear", "dark seal", "long sword", "amplifying tome",
   "cloth armor", "ruby crystal", "sapphire crystal"]

/-- The record `_analyze_build_progress` returns (lines 269-276), without
the display-only `core_completion_percentage` float. -/
structure BuildProgress where
  completed_core_items : List String
  missing_core_items : List String
  has_boots : Bool
  total_items : Nat
  completed_items_count : Nat
deriving DecidableEq, Repr

/-- `SnapshotAnalyzer._analyze_build_progress` (lines 244-276). -/
def analyze_build_progress (current_items : List String) (champion_build : BuildInfo) :
    BuildProgress :=
  let core_items := champion_build.core_items
  let current_lower := current_items.map pyLower
  let completed_core := core_items.filter (fun item => ownsCoreItem current_lower item)
  let missing_core := core_items.filter (fun item => !ownsCoreItem current_lower item)
  let completed_items := current_items.filter (fun i =>
    !starter_items.any (fun st => strContains (pyLower i) st))
  { completed_core_items := completed_core,
    missing_core_items := missing_core,
    has_boots := hasBootsCheck current_items,
    total_items := current_items.length,
    completed_items_count := completed_items.length }

/-- One recommendation entry of
`_generate_detailed_item_recommendations`.  The `stats` dictionary copied
into core entries (line 420) is opaque passthrough data and is omitted. -/
structure ItemRec where
  item : String
  priority : String
  gold_cost : Int
  reason : String
  timing : String
deriving DecidableEq, Repr

/-- The `priority_order` ranking (line 502), with the `.get(_, 4)`
default. -/
def priOrd (priority : String) : Nat :=
  if priority = "essential" then 0
  else if priority = "core" then 1
  else if priority = "situational" then 2
  else if priority = "defensive" then 3
  else 4

/-- The sort key order of line 503-505: priority rank first, then gold
cost ascending.  Python's stable `sort` under this (total, transitive)
relation is `List.insertionSort`. -/
def recLe (a b : ItemRec) : Prop :=
  priOrd a.priority < priOrd b.priority ∨
    (priOrd a.priority = priOrd b.priority ∧ a.gold_cost ≤ b.gold_cost)

instance (a b : ItemRec) : Decidable (recLe a b) :=
  inferInstanceAs (Decidable (priOrd a.priority < priOrd b.priority ∨
    (priOrd a.priority = priOrd b.priority ∧ a.gold_cost ≤ b.gold_cost)))

instance : IsTotal ItemRec recLe where
  total a b := by
    rcases Nat.lt_trichotomy (priOrd a.priority) (priOrd b.priority) with h | h | h
    · exact Or.inl (Or.inl h)
    · rcases Int.le_total a.gold_cost b.gold_cost with hg | hg
      · exact Or.inl (Or.inr ⟨h, hg⟩)
      · exact Or.inr (Or.inr ⟨h.symm, hg⟩)
    · exact Or.inr (Or.inl h)

instance : IsTrans ItemRec recLe where
  trans a b c hab hbc := by
    rcases hab with h1 | ⟨h1, g1⟩
    · rcases hbc with h2 | ⟨h2, _⟩
      · exact Or.inl (Nat.lt_trans h1 h2)
      · exact Or.inl (h2 ▸ h1)
    · rcases hbc with h2 | ⟨h2, g2⟩
      · exact Or.inl (h1 ▸ h2)
      · exact Or.inr ⟨h1.trans h2, g1.trans g2⟩

/-- The first-occurrence deduplication by item name of lines 495-500. -/
def dedupRecsAux (seen : List String) : List ItemRec → List ItemRec
  | [] => []
  | rec :: rest =>
    if rec.item ∈ seen then dedupRecsAux seen rest
    else rec :: dedupRecsAux (rec.item :: seen) rest

/-- Deduplicate by item name, first occurrence kept. -/
def dedupRecs (l : List ItemRec) : List ItemRec := dedupRecsAux [] l

/-- The tail of `_generate_detailed_item_recommendations` (lines 494-507):
deduplicate by item name, stable-sort by (priority rank, gold cost), cap
at 8. -/
def finalizeRecs (recommendations : List ItemRec) : List ItemRec :=
  (List.insertionSort recLe (dedupRecs recommendations)).take 8

/-- The boots recommendation of lines 384-403. -/
def bootsRecs (enemy_analysis : EnemyAnalysis) (current_items : List String) : List ItemRec :=
  if hasBootsCheck current_items then []
  else
    let choice :=
      if enemy_analysis.ap_heavy then
        ("Mercury's Treads", "Magic resist and tenacity against AP-heavy team")
      else if enemy_analysis.ad_heavy || enemy_analysis.has_assassins then
        ("Plated Steelcaps", "Armor against AD-heavy/assassin team")
      else ("Ionian Boots of Lucidity", "Ability haste for faster cooldowns")
    [{ item := choice.1, priority := "essential", gold_cost := 1100,
       reason := choice.2, timing := "Buy on next back" }]

/-- The missing-core-item recommendations of lines 405-423, in build-list
order, each priced from `get_item_info` (`0` for an unknown item or
`None`/zero cost). -/
def coreRecs (r : Retriever) (champion_build : BuildInfo)
    (current_items_lower : List String) (champ_info : ChampDetails) : List ItemRec :=
  (champion_build.core_items.filter (fun item => !ownsCoreItem current_items_lower item)).map
    (fun item =>
      let gold_cost := match r.item_info item with
        | some info => info.gold_cost.getD 0
        | none => 0
      { item, priority := "core", gold_cost,
        reason := "Core build item - essential for " ++
          champ_info.name_field.getD "your champion" ++ "'s kit",
        timing := "Rush this item" })

/-- The counter-item recommendation against the primary threat
(lines 425-449): an MR item when the threat deals magic damage and no MR
counter item is owned (Spirit Visage when the user's champion-info repr
mentions healing, else Force of Nature), an armor item when it deals
physical damage and no armor counter item is owned (Randuin's Omen
against a ranged threat, else Thornmail). -/
def situationalRecs (r : Retriever) (enemy_analysis : EnemyAnalysis)
    (current_items_lower : List String) (champ_info : ChampDetails) : List ItemRec :=
  match enemy_analysis.primary_threat with
  | none => []
  | some threat =>
    let threat_info := champDetails r threat.champion
    let threat_damage := threat_info.damage_type
    if strContains threat_damage "Magic" &&
        !(current_items_lower.any (fun i =>
          strContains (pyLower i) "spirit" || strContains (pyLower i) "force of nature" ||
          strContains (pyLower i) "maw")) then
      [{ item := if champ_info.repr_has_heal then "Spirit Visage" else "Force of Nature",
         priority := "situational", gold_cost := 2900,
         reason := "Magic resist to survive " ++ threat.champion ++
           " (fed with " ++ toString threat.gold ++ " gold)",
         timing := "Build after core if they're a problem" }]
    else if strContains threat_damage "Physical" &&
        !(current_items_lower.any (fun i =>
          strContains (pyLower i) "thornmail" || strContains (pyLower i) "randuin" ||
          strContains (pyLower i) "dead man")) then
      [{ item := if threat_info.is_ranged then "Randuin's Omen" else "Thornmail",
         priority := "situational", gold_cost := 2700,
         reason := "Armor to survive " ++ threat.champion ++
           " (fed with " ++ toString threat.gold ++ " gold)",
         timing := "Build after core if they're a problem" }]
    else []

/-- The healing-champion roster of lines 452-453. -/
def healing_champs : List String :=
  ["Aatrox", "Vladimir", "Sylas", "Swain", "Soraka", "Yuumi", "Sona",
   "Nami", "Dr. Mundo", "Warwick", "Fiddlesticks", "Illaoi"]

/-- The anti-heal recommendation of lines 451-467.  The Python test
`h.lower() in str(enemy_names).lower()` over the repr of the threat-name
list is containment in some listed name (the repr separators cannot host
a champion name). -/
def antihealRecs (enemy_analysis : EnemyAnalysis) (current_items_lower : List String)
    (champ_info : ChampDetails) : List ItemRec :=
  let enemy_names := enemy_analysis.threats.map (fun t => t.champion)
  let needs_antiheal := healing_champs.any (fun h =>
    enemy_names.any (fun e => strContains (pyLower e) (pyLower h)))
  if needs_antiheal &&
      !(current_items_lower.any (fun i =>
        strContains (pyLower i) "thornmail" || strContains (pyLower i) "mortal" ||
        strContains (pyLower i) "oblivion" || strContains (pyLower i) "putrifier")) then
    [{ item := if champ_info.roles.any (fun ro => strContains ro "Tank") then "Thornmail"
               else "Mortal Reminder",
       priority := "situational", gold_cost := 2700,
       reason := "Anti-heal to reduce enemy healing",
       timing := "Important against healing champions" }]
  else []

/-- The magic-resist defensive pair of lines 470-480 (the first two of the
three-item table, with the shared timing line). -/
def mrDefensiveRecs (enemy_analysis : EnemyAnalysis)
    (current_items_lower : List String) : List ItemRec :=
  if enemy_analysis.ap_heavy &&
      !(current_items_lower.any (fun i =>
        strContains (pyLower i) "spirit" || strContains (pyLower i) "force" ||
        strContains (pyLower i) "maw")) then
    let timing := "Needed against " ++
      String.intercalate ", " (enemy_analysis.ap_champions.take 2)
    [{ item := "Spirit Visage", priority := "defensive", gold_cost := 2900,
       reason := "Increased healing + MR", timing },
     { item := "Force of Nature", priority := "defensive", gold_cost := 2900,
       reason := "Movement speed + high MR", timing }]
  else []

/-- The armor defensive pair of lines 482-492. -/
def armorDefensiveRecs (enemy_analysis : EnemyAnalysis)
    (current_items_lower : List String) : List ItemRec :=
  if enemy_analysis.ad_heavy &&
      !(current_items_lower.any (fun i =>
        strContains (pyLower i) "thornmail" || strContains (pyLower i) "randuin" ||
        strContains (pyLower i) "dead man")) then
    let timing := "Needed against " ++
      String.intercalate ", " (enemy_analysis.ad_champions.take 2)
    [{ item := "Thornmail", priority := "defensive", gold_cost := 2700,
       reason := "Armor + anti-heal + damage reflection", timing },
     { item := "Randuin's Omen", priority := "defensive", gold_cost := 2700,
       reason := "Armor + anti-crit + slow", timing }]
  else []

/-- `SnapshotAnalyzer._generate_detailed_item_recommendations`
(lines 367-507): boots, missing core items, threat counter item,
anti-heal, defensive pairs — then deduplicated by item name, sorted by
(priority rank, gold cost) and capped at 8.  The `available_gold` and
`lane_opponent` parameters are received but never read in the body, as in
the source. -/
def generate_detailed_item_recommendations (r : Retriever)
    (champion_build : BuildInfo) (current_items : List String)
    (available_gold : Int) (enemy_analysis : EnemyAnalysis)
    (lane_opponent : Option (String × List String)) (champ_info : ChampDetails) :
    List ItemRec :=
  let current_items_lower := current_items.map pyLower
  finalizeRecs
    (bootsRecs enemy_analysis current_items
      ++ coreRecs r champion_build current_items_lower champ_info
      ++ situationalRecs r enemy_analysis current_items_lower champ_info
      ++ antihealRecs enemy_analysis current_items_lower champ_info
      ++ mrDefensiveRecs enemy_analysis current_items_lower
      ++ armorDefensiveRecs enemy_analysis current_items_lower)

/-- One immediate-purchase suggestion (`_get_immediate_purchases`). -/
structure Purchase where
  item : String
  gold_cost : Int
  type : String
  reason : String
deriving DecidableEq, Repr

/-- The component table of `_get_immediate_purchases` (lines 515-523),
as (item, gold cost, builds-into) rows. -/
def purchase_components : List (String × Int × String) :=
  [("Long Sword", 350, "AD items"), ("Amplifying Tome", 435, "AP items"),
   ("Ruby Crystal", 400, "Health items"), ("Cloth Armor", 300, "Armor items"),
   ("Null-Magic Mantle", 450, "MR items"), ("Boots", 300, "Upgraded boots"),
   ("Control Ward", 75, "Vision")]

/-- `SnapshotAnalyzer._get_immediate_purchases` (lines 509-547):
affordable recommendations first; when none are affordable or gold is
under 1000, cheap components not already owned (exact lower-cased name
membership); capped at 5. -/
def get_immediate_purchases (available_gold : Int) (recommendations : List ItemRec)
    (current_items : List String) : List Purchase :=
  let immediate := (recommendations.filter (fun rec => rec.gold_cost ≤ available_gold)).map
    (fun rec => Purchase.mk rec.item rec.gold_cost "complete" rec.reason)
  let current_lower := current_items.map pyLower
  let immediate :=
    if immediate.isEmpty || available_gold < 1000 then
      immediate ++ (purchase_components.filter (fun c =>
          c.2.1 ≤ available_gold && !current_lower.contains (pyLower c.1))).map
        (fun c => Purchase.mk c.1 c.2.1 "component" ("Builds into " ++ c.2.2))
    else immediate
  immediate.take 5

/-- The lane-opponent summary embedded in `analyze_item_recommendations`
(lines 198-205). -/
structure LaneOppInfo where
  champion : String
  level : Nat
  gold : Int
  items : List String
  gold_diff : Int
deriving DecidableEq, Repr

/-- The success payload of `analyze_item_recommendations`
(lines 227-242). -/
structure ItemsPayload where
  champion : String
  role : String
  damage_type : String
  current_items : List String
  total_gold : Int
  estimated_available_gold : Int
  build_progress : BuildProgress
  core_items : List String
  recommended_items : List String
  situational_items : List String
  next_item_suggestions : List ItemRec
  immediate_purchases : List Purchase
  lane_opponent : Option LaneOppInfo
  enemy_composition : EnemyAnalysis
deriving DecidableEq, Repr

/-- `SnapshotAnalyzer.analyze_item_recommendations` (lines 158-242).  The
`minute` local is read from the snapshot but never used afterwards in the
source and is dropped here; `lane_opponent` is passed to the generator as
the (unused) pair of champion and items. -/
def analyze_item_recommendations (r : Retriever) (s : Snapshot) : PyResult ItemsPayload :=
  match get_user_player s with
  | none => PyResult.error "User player not found in snapshot"
  | some user =>
    let champion_name := user.champion
    let current_items := user.items
    let total_gold := user.total_gold
    let champion_build := (r.build champion_name).getD ⟨[], [], []⟩
    let champ_info := champDetails r champion_name
    let enemies := get_enemies s
    let enemy_analysis := analyze_enemy_composition r enemies
    let lane_opponent := get_lane_opponent s
    let lane_opponent_analysis := lane_opponent.map (fun o =>
      LaneOppInfo.mk o.champion o.level o.total_gold o.items (total_gold - o.total_gold))
    let spent_gold := estimate_spent_gold r current_items
    let available_gold := max 0 (total_gold - spent_gold)
    let build_progress := analyze_build_progress current_items champion_build
    let recommendations := generate_detailed_item_recommendations r champion_build
      current_items available_gold enemy_analysis
      (lane_opponent.map (fun o => (o.champion, o.items))) champ_info
    let immediate_buys := get_immediate_purchases available_gold recommendations current_items
    PyResult.ok
      { champion := champion_name,
        role := match champ_info.roles with | [] => "Unknown" | ro :: _ => ro,
        damage_type := champ_info.damage_type,
        current_items, total_gold,
        estimated_available_gold := available_gold,
        build_progress,
        core_items := champion_build.core_items,
        recommended_items := champion_build.recommended_items,
        situational_items := champion_build.situational_items,
        next_item_suggestions := recommendations,
        immediate_purchases := immediate_buys,
        lane_opponent := lane_opponent_analysis,
        enemy_composition := enemy_analysis }

/-- The record `_analyze_lane_matchup` returns (lines 719-731). -/
structure LaneMatchup where
  opponent : String
  opponent_level : Nat
  opponent_gold : Int
  opponent_items : List String
  gold_difference : Int
  level_difference : Int
  cs_difference : Int
  lane_state : String
  is_countered : Bool
  counter_severity : Option String
  advice : String
deriving DecidableEq, Repr

/-- The lane-state banding of `_analyze_lane_matchup` (lines 699-714),
returning (state, base advice): strictly above +1000 is "Winning Hard",
strictly above +300 is "Winning", strictly below -1000 is "Losing Hard",
strictly below -300 is "Losing", else "Even". -/
def laneStateAdvice (gold_diff : Int) : String × String :=
  if gold_diff > 1000 then
    ("Winning Hard", "You have a significant lead. Zone them from CS and look for kills or roams.")
  else if gold_diff > 300 then
    ("Winning", "You're ahead. Maintain your lead and deny farm when safe.")
  else if gold_diff < -1000 then
    ("Losing Hard", "You're significantly behind. Play safe under tower and wait for ganks.")
  else if gold_diff < -300 then
    ("Losing", "You're behind. Focus on farming safely and avoid trading.")
  else ("Even", "Lane is even. Look for favorable trades and jungle assistance.")

/-- `SnapshotAnalyzer._analyze_lane_matchup` (lines 674-731). -/
def analyze_lane_matchup (user opponent : Player) (user_counters : CounterLists) :
    LaneMatchup :=
  let opp_champ := opponent.champion
  let gold_diff := user.total_gold - opponent.total_gold
  let level_diff := (user.level : Int) - (opponent.level : Int)
  let cs_diff := (user.cs : Int) - (opponent.cs : Int)
  let opp_norm := pyNormNoSpace opp_champ
  let counter_state :=
    if user_counters.hard_countered_by.any (fun c => strContains (pyNormNoSpace c) opp_norm) then
      (true, some "Hard")
    else if user_counters.countered_by.any (fun c => strContains (pyNormNoSpace c) opp_norm) then
      (true, some "Soft")
    else (false, (none : Option String))
  let state_advice := laneStateAdvice gold_diff
  let advice :=
    if counter_state.1 then
      state_advice.2 ++ " Note: " ++ opp_champ ++ " is a " ++
        pyLower ((counter_state.2).getD "") ++ " counter to you - play extra careful."
    else state_advice.2
  { opponent := opp_champ,
    opponent_level := opponent.level,
    opponent_gold := opponent.total_gold,
    opponent_items := opponent.items,
    gold_difference := gold_diff,
    level_difference := level_diff,
    cs_difference := cs_diff,
    lane_state := state_advice.1,
    is_countered := counter_state.1,
    counter_severity := counter_state.2,
    advice }

/-- One entry of `enemies_that_counter_user` (lines 581-611). -/
structure CounterWarning where
  champion : String
  counter_type : String
  advice : String
deriving DecidableEq, Repr

/-- The `enemies_that_counter_user` loop of `analyze_counter_strategies`
(lines 585-611): per enemy, the first matching hard counter produces a
"HARD COUNTER" entry, else the first matching soft counter a "Soft
Counter" entry. -/
def counterWarnings (hard_countered_by countered_by : List String)
    (enemies : List Player) : List CounterWarning :=
  enemies.flatMap (fun enemy =>
    let en := pyNormNoSpace enemy.champion
    if hard_countered_by.any (fun c => strContains (pyNormNoSpace c) en) then
      [⟨enemy.champion, "HARD COUNTER",
        "Play very carefully against " ++ enemy.champion ++
          ". Consider roaming or asking for jungle help."⟩]
    else if countered_by.any (fun c => strContains (pyNormNoSpace c) en) then
      [⟨enemy.champion, "Soft Counter",
        enemy.champion ++ " has an advantage. Play around their cooldowns."⟩]
    else [])

/-- `SnapshotAnalyzer._generate_enemy_tips` (lines 733-765); the
`user_info` parameter is received and unused, as in the source. -/
def generate_enemy_tips (enemy_name : String) (enemy_info : ChampDetails)
    (enemy_player : Player) (user_info : ChampDetails) : List String :=
  let damage_type := enemy_info.damage_type
  let hero_type := enemy_info.hero_type
  let tips :=
    (if strContains damage_type "Magic" then
      [enemy_name ++ " deals magic damage - consider Mercury's Treads or MR items"]
     else if strContains damage_type "Physical" then
      [enemy_name ++ " deals physical damage - consider Plated Steelcaps or armor items"]
     else [])
    ++ (if strContains hero_type "Assassin" then
         ["Watch out for " ++ enemy_name ++ "'s burst damage - don't get caught alone",
          "Stay grouped with your team and ward flanks"]
        else if strContains hero_type "Tank" then
         [enemy_name ++ " is tanky - focus on kiting and don't waste all cooldowns on them",
          "Consider armor penetration or magic penetration items"]
        else if strContains hero_type "Mage" then
         ["Dodge " ++ enemy_name ++ "'s skillshots - their damage comes from abilities"]
        else [])
    ++ (if enemy_player.total_gold > 4000 then
         ["DANGER: " ++ enemy_name ++ " is fed (" ++ toString enemy_player.total_gold ++
          " gold) - don't fight them alone"]
        else [])
    ++ (if enemy_player.level ≥ 6 then
         [enemy_name ++ " has their ultimate - respect their all-in potential"]
        else [])
  tips.take 4

/-- One entry of `enemy_strategies` (lines 642-655); the passthrough
`skills` payload is omitted. -/
structure EnemyStrategy where
  champion : String
  position : String
  level : Nat
  gold : Int
  items : List String
  damage_type : String
  threat_level : String
  user_counters_them : Bool
  hard_countered_by : List String
  countered_by : List String
  tips : List String
deriving DecidableEq, Repr

/-- The per-enemy strategy record of lines 615-655. -/
def enemyStrategy (r : Retriever) (user_champion : String)
    (user_info : ChampDetails) (e : Player) : EnemyStrategy :=
  let enemy_name := e.champion
  let counter_info := (r.counters_countered_by enemy_name).getD ⟨[], []⟩
  let enemy_info := champDetails r enemy_name
  let user_normalized := pyNormNoSpace user_champion
  let user_counters_enemy :=
    (counter_info.hard_countered_by ++ counter_info.countered_by).any (fun c =>
      strContains (pyNormNoSpace c) user_normalized)
  let tips := generate_enemy_tips enemy_name enemy_info e user_info
  let threat_level :=
    if e.level ≥ 10 || e.total_gold > 4500 then "High"
    else if e.level ≥ 8 || e.total_gold > 3500 then "Medium"
    else "Low"
  { champion := enemy_name,
    position := (rolePosition e.participant_id).getD "Unknown",
    level := e.level,
    gold := e.total_gold,
    items := e.items,
    damage_type := enemy_info.damage_type,
    threat_level,
    user_counters_them := user_counters_enemy,
    hard_countered_by := counter_info.hard_countered_by.take 5,
    countered_by := counter_info.countered_by.take 5,
    tips }

/-- Descending gold order for the strategy sort (line 669). -/
def stratGe (a b : EnemyStrategy) : Prop := b.gold ≤ a.gold

instance (a b : EnemyStrategy) : Decidable (stratGe a b) :=
  inferInstanceAs (Decidable (b.gold ≤ a.gold))

/-- One ally-synergy note (lines 780-794). -/
structure SynergyNote where
  champion : String
  synergy_level : String
  advice : String
deriving DecidableEq, Repr

/-- The record `_analyze_ally_synergies` returns (lines 796-799). -/
structure AllySynergies where
  allies : List (String × Nat)
  synergies : List SynergyNote
deriving DecidableEq, Repr

/-- `SnapshotAnalyzer._analyze_ally_synergies` (lines 767-799): per ally,
a strong match first, else a normal match (the Python `for`/`else`). -/
def analyze_ally_synergies (r : Retriever) (user_champion : String)
    (allies : List Player) : AllySynergies :=
  let synergy_info := (r.synergies user_champion).getD ⟨[], []⟩
  let strong_synergies := synergy_info.strong_synergy
  let synergies := synergy_info.synergy
  let ally_names := allies.map (fun a => a.champion)
  let good_synergies := ally_names.flatMap (fun ally =>
    let ally_normalized := pyNormNoSpace ally
    if strong_synergies.any (fun st => strContains (pyNormNoSpace st) ally_normalized) then
      [⟨ally, "Strong", "Great synergy with " ++ ally ++ "! Look for combo opportunities."⟩]
    else if synergies.any (fun sy => strContains (pyNormNoSpace sy) ally_normalized) then
      [⟨ally, "Good", "Good synergy with " ++ ally ++ ". Coordinate your abilities."⟩]
    else [])
  { allies := allies.map (fun a => (a.champion, a.level)), synergies := good_synergies }

/-- `SnapshotAnalyzer._generate_teamfight_advice` (lines 801-835); the
`allies` parameter is received and unused, as in the source. -/
def generate_teamfight_advice (r : Retriever) (user_info : ChampDetails)
    (enemies : List Player) (allies : List Player) : List String :=
  let hero_type := user_info.hero_type
  let roles := user_info.roles
  let positioning :=
    if strContains hero_type "Tank" || roles.any (fun ro => strContains ro "TankRole") then
      ["Position in front of your team to absorb damage and initiate",
       "Use your CC on enemy carries when they step forward"]
    else if strContains hero_type "Assassin" || roles.any (fun ro => strContains ro "AssassinRole") then
      ["Wait for key abilities to be used before going in",
       "Flank to reach enemy backline - focus the ADC or mid laner"]
    else if roles.any (fun ro => strContains ro "Carry") || roles.any (fun ro => strContains ro "Marksman") then
      ["Stay behind your frontline and attack the closest safe target",
       "Don't overextend - your survival is crucial for DPS"]
    else if strContains hero_type "Mage" || roles.any (fun ro => strContains ro "MageRole") then
      ["Position safely and land your abilities on grouped enemies",
       "Save your CC for enemy divers"]
    else if roles.any (fun ro => strContains ro "Support") then
      ["Protect your carries and peel for them",
       "Save your key abilities to counter enemy engages"]
    else []
  let enemy_carries := (enemies.filter (fun e =>
    let info := champDetails r e.champion
    info.roles.any (fun ro => strContains ro "Carry") ||
      strContains info.hero_type "Assassin")).map (fun e => e.champion)
  let advice := positioning ++
    (if enemy_carries.isEmpty then []
     else ["Priority targets in teamfights: " ++ String.intercalate ", " enemy_carries])
  advice.take 5

/-- The success payload of `analyze_counter_strategies` (lines 663-672). -/
structure CounterPayload where
  user_champion : String
  user_position : String
  user_damage_type : String
  lane_matchup : Option LaneMatchup
  enemies_that_counter_user : List CounterWarning
  enemy_strategies : List EnemyStrategy
  ally_synergies : AllySynergies
  teamfight_advice : List String
deriving DecidableEq, Repr

/-- `SnapshotAnalyzer.analyze_counter_strategies` (lines 549-672). -/
def analyze_counter_strategies (r : Retriever) (s : Snapshot) : PyResult CounterPayload :=
  match get_user_player s with
  | none => PyResult.error "User player not found in snapshot"
  | some user =>
    let enemies := get_enemies s
    let allies := get_allies s
    let user_champion := user.champion
    let user_position := (rolePosition user.participant_id).getD "Top"
    let user_info := champDetails r user_champion
    let user_counters := (r.counters_countered_by user_champion).getD ⟨[], []⟩
    let lane_opponent := get_lane_opponent s
    let lane_matchup := lane_opponent.map (fun o => analyze_lane_matchup user o user_counters)
    let enemies_that_counter_user :=
      counterWarnings user_counters.hard_countered_by user_counters.countered_by enemies
    let enemy_strategies := enemies.map (fun e => enemyStrategy r user_champion user_info e)
    let ally_synergies := analyze_ally_synergies r user_champion allies
    let teamfight_advice := generate_teamfight_advice r user_info enemies allies
    PyResult.ok
      { user_champion, user_position,
        user_damage_type := user_info.damage_type,
        lane_matchup, enemies_that_counter_user,
        enemy_strategies := List.insertionSort stratGe enemy_strategies,
        ally_synergies, teamfight_advice }

/-- The success payload of `analyze_game_state` (lines 923-975), restricted
to the fields that carry the claims and that `_generate_summary` reads:
the banded `game_state`, the (side-flipped) `team_gold_diff`, the team
gold figures, the assessment line and the user's CS rating.  The
display-only per-minute floats, team listings, objective, win-condition
and power-spike sub-reports do not feed back into these fields and are
omitted. -/
structure GSPayload where
  minute : Nat
  game_state : String
  gold_assessment : String
  team_gold : Int
  enemy_team_gold : Int
  team_gold_diff : Int
  user_cs_rating : String
  user_champion : String
deriving DecidableEq, Repr

/-- The game-state banding of `analyze_game_state` (lines 891-912),
returning (assessment, state): strict thresholds at +3000, +1500, +500 on
the winning side and -3000, -1500, -500 on the losing side, everything
else "Even". -/
def goldStateAssessment (gold_diff : Int) : String × String :=
  if gold_diff > 3000 then
    ("Significant lead - Look to force objectives and end", "Winning")
  else if gold_diff > 1500 then
    ("Good lead - Press your advantage on objectives", "Ahead")
  else if gold_diff > 500 then
    ("Slight lead - Continue to build your advantage", "Slightly Ahead")
  else if gold_diff < -3000 then
    ("Significantly behind - Stall for late game, avoid fights", "Losing")
  else if gold_diff < -1500 then
    ("Behind - Play safe, look for picks, defend objectives", "Behind")
  else if gold_diff < -500 then
    ("Slightly behind - Focus on farming and scaling", "Slightly Behind")
  else ("Even game - Focus on objectives and team coordination", "Even")

/-- `SnapshotAnalyzer.analyze_game_state` (lines 837-975): the snapshot's
`gold_diff` is taken as is for a Blue-side user and negated otherwise,
then banded by `goldStateAssessment`. -/
def analyze_game_state (s : Snapshot) : PyResult GSPayload :=
  match get_user_player s with
  | none => PyResult.error "User player not found in snapshot"
  | some user =>
    let gold_diff := if user.team = "Blue" then s.gold_diff else -s.gold_diff
    let team_gold := if user.team = "Blue" then s.blue_team_gold else s.red_team_gold
    let enemy_team_gold := if user.team = "Blue" then s.red_team_gold else s.blue_team_gold
    let state_assessment := goldStateAssessment gold_diff
    PyResult.ok
      { minute := s.minute,
        game_state := state_assessment.2,
        gold_assessment := state_assessment.1,
        team_gold, enemy_team_gold,
        team_gold_diff := gold_diff,
        user_cs_rating := csRating user.cs s.minute,
        user_champion := user.champion }

/-- The record `_generate_summary` returns (lines 1211-1218). -/
structure Summary where
  champion : String
  position : String
  game_state : String
  gold_diff : Int
  key_points : List String
  primary_focus : String
deriving DecidableEq, Repr

/-- `SnapshotAnalyzer._generate_summary` (lines 1160-1218) for a present
user player.  When a sub-analysis returned its error dictionary, each
`.get` on it falls back to its default ("Unknown" state, 0 gold diff,
empty lists), which the `PyResult.error` branches reproduce.  When the
user player is absent the source raises instead of reaching this code —
that case is handled at `full_analysis`. -/
def generate_summary (user : Player) (game_state : PyResult GSPayload)
    (items : PyResult ItemsPayload) (counters : PyResult CounterPayload) : Summary :=
  let champion := user.champion
  let state := match game_state with
    | PyResult.ok p => p.game_state
    | PyResult.error _ => "Unknown"
  let gold_diff := match game_state with
    | PyResult.ok p => p.team_gold_diff
    | PyResult.error _ => 0
  let cs_rating := match game_state with
    | PyResult.ok p => p.user_cs_rating
    | PyResult.error _ => ""
  let counters_user := match counters with
    | PyResult.ok p => p.enemies_that_counter_user
    | PyResult.error _ => []
  let hard_counters := counters_user.filter (fun c => strContains c.counter_type "HARD")
  let lane_matchup := match counters with
    | PyResult.ok p => p.lane_matchup
    | PyResult.error _ => none
  let next_items := match items with
    | PyResult.ok p => p.next_item_suggestions
    | PyResult.error _ => []
  let immediate := match items with
    | PyResult.ok p => p.immediate_purchases
    | PyResult.error _ => []
  let available_gold := match items with
    | PyResult.ok p => p.estimated_available_gold
    | PyResult.error _ => 0
  let key_points :=
    (if state = "Winning" ∨ state = "Ahead" then
      ["You're ahead by " ++ toString gold_diff.natAbs ++ " gold - press your advantage"]
     else if state = "Losing" ∨ state = "Behind" then
      ["You're behind by " ++ toString gold_diff.natAbs ++ " gold - play safe and scale"]
     else ["Game is even - focus on objectives and smart trades"])
    ++ (if cs_rating = "Below Average" then
         ["Focus on improving CS - you're falling behind in farm"] else [])
    ++ (match hard_counters.head? with
        | some c => ["Warning: " ++ c.champion ++ " hard counters you"]
        | none => [])
    ++ (match lane_matchup with
        | some lm =>
          if strContains lm.lane_state "Losing" then
            ["You're losing lane to " ++ lm.opponent ++ " - play safe"]
          else if strContains lm.lane_state "Winning" then
            ["You're winning lane - look to roam or dive"]
          else []
        | none => [])
    ++ (match next_items.head? with
        | some rec => ["Priority purchase: " ++ rec.item]
        | none => [])
    ++ (match immediate.head? with
        | some buy =>
          if available_gold > 0 then
            ["You have " ++ toString available_gold ++ " gold - buy " ++ buy.item]
          else []
        | none => [])
  { champion,
    position := (rolePosition user.participant_id).getD "Top",
    game_state := state,
    gold_diff,
    key_points := key_points.take 6,
    primary_focus := key_points.head?.getD "Play your game" }

/-- The success payload of `full_analysis` (lines 1152-1158). -/
structure FullPayload where
  match_id : String
  summary : Summary
  game_state : PyResult GSPayload
  item_recommendations : PyResult ItemsPayload
  counter_strategies : PyResult CounterPayload
deriving DecidableEq, Repr

/-- `full_analysis`'s result dictionary: the "No game snapshot available"
error dictionary or the payload. -/
inductive FullResult where
  | error (msg : String)
  | result (payload : FullPayload)
deriving DecidableEq, Repr

/-- The exception message with which CPython aborts
`_generate_summary` when `full_analysis` passes it `user = None`
(line 1163 evaluates `None.get("champion", "Unknown")`). -/
def noneGetMsg : String :=
  "AttributeError: 'NoneType' object has no attribute 'get'"

/-- `SnapshotAnalyzer.full_analysis` (lines 1132-1158): with no snapshot
argument the default `get_snapshot()` is consulted; a missing snapshot
returns the error dictionary; otherwise the three phase analyses run, and
`_generate_summary(user, ...)` is called with the raw `get_user_player`
result — which raises `AttributeError` (the outer `Except.error`) when no
player has `participant_id == 1`, instead of returning the structured
error the three phases produced. -/
def full_analysis (r : Retriever) (snapshots : List Snapshot)
    (snapshot : Option Snapshot) : Except String FullResult :=
  let chosen := match snapshot with
    | some s => some s
    | none => get_snapshot snapshots 0
  match chosen with
  | none => Except.ok (FullResult.error "No game snapshot available")
  | some s =>
    let game_state := analyze_game_state s
    let item_recommendations := analyze_item_recommendations r s
    let counter_strategies := analyze_counter_strategies r s
    match get_user_player s with
    | none => Except.error noneGetMsg
    | some user =>
      Except.ok (FullResult.result
        { match_id := s.match_id,
          summary := generate_summary user game_state item_recommendations counter_strategies,
          game_state, item_recommendations, counter_strategies })

/-- Projection: the `game_state` field of an `analyze_game_state` result
("" on the error dictionary). -/
def gsStateOf : PyResult GSPayload → String
  | PyResult.ok p => p.game_state
  | PyResult.error _ => ""

/-- Projection: the `team_gold_diff` field of an `analyze_game_state`
result (0 on the error dictionary). -/
def gsDiffOf : PyResult GSPayload → Int
  | PyResult.ok p => p.team_gold_diff
  | PyResult.error _ => 0

/-- Dictionary lookup on the coverage association list: the list of the
first entry with the given key. -/
def covLookup (champion : String) : List (String × List String) → Option (List String)
  | [] => none
  | p :: rest => if p.1 = champion then some p.2 else covLookup champion rest

/-- Specification helper for the coverage fold: how one champion's entry
grows across a batch of enemies (absent stays absent on no hits, appears
on first hit, extends on later hits). -/
def covCombine : Option (List String) → List String → Option (List String)
  | none, [] => none
  | none, l => some l
  | some l0, l => some (l0 ++ l)

/-- A retriever whose every lookup reports the entity missing. -/
def rTriv : Retriever :=
  ⟨fun _ => none, fun _ => none, fun _ => none, fun _ => none, fun _ => none⟩

/-- A player on the Red side with `participant_id = 2`. -/
def playerP2 : Player := ⟨2, "Zed", "Red", 8, 4000, 60, []⟩

/-- A snapshot whose only player is `playerP2`: no `participant_id == 1`
subject. -/
def snapNoUser : Snapshot := ⟨"m1", 10, 15000, 16000, -1000, [playerP2]⟩

/-- A Top-lane user player with 6000 total gold. -/
def userC2 : Player := ⟨1, "Garen", "Blue", 9, 6000, 70, []⟩

/-- The Top-lane opponent with 4500 total gold. -/
def oppC2 : Player := ⟨6, "Darius", "Red", 9, 4500, 60, []⟩

/-- A Blue-side user player. -/
def userC4 : Player := ⟨1, "Ashe", "Blue", 9, 6200, 80, []⟩

/-- A snapshot with `gold_diff = 3200` for the Blue-side user. -/
def snapC4 : Snapshot := ⟨"m4", 10, 18200, 15000, 3200, [userC4]⟩

/-- A two-node graph: enemy "E" (node 0) is `counteredBy` champion "X"
(node 1). -/
def gC7 : RdfGraph := ⟨[(0, "E"), (1, "X")], [], [], [(0, 1)]⟩

/-- A two-node graph with one directed strong-synergy edge A → B. -/
def gC6 : RdfGraph := ⟨[(0, "A"), (1, "B")], [(0, 1)], [], []⟩

/-- A store on which every synergy `ASK` raises. -/
def badSynergyAsk : SynergyAsk :=
  ⟨fun _ _ => Except.error "SPARQL query error",
   fun _ _ => Except.error "SPARQL query error"⟩

/-- A store on which every `SELECT` raises. -/
def badSelectStore : SelectStore := ⟨fun _ => Except.error "SPARQL query error"⟩

/-- A store on which every `SELECT` succeeds with no rows. -/
def emptySelectStore : SelectStore := ⟨fun _ => Except.ok []⟩

/-- A recommend-pick store with one lane candidate ("Garen") whose counter
`ASK` raises. -/
def pickStoreC3 : RecommendStore :=
  ⟨fun _ => Except.ok [fun _ => "Garen"],
   fun _ _ => Except.error "SPARQL query error",
   fun _ _ => Except.ok false,
   fun _ _ => Except.ok false⟩

/-- A two-champion store for `find_champion`. -/
def champListC9 : List (String × Champ) := [("garen", ⟨"Garen"⟩), ("ashe", ⟨"Ashe"⟩)]

/-! Theorems.  Each claim of the frozen list gets exactly one main
theorem below, preceded by helper lemmas where needed. -/

/-- Helper: the empty string is a substring of every string. -/
theorem strContains_empty (s : String) : strContains s "" = true := by
  have : ("" : String).data = [] := rfl
  simp [strContains, this]

/-- Helper: a snapshot with no `participant_id == 1` player has no user
player. -/
theorem get_user_player_eq_none (s : Snapshot)
    (h : ∀ p ∈ s.players, p.participant_id ≠ 1) : get_user_player s = none := by
  unfold get_user_player
  rw [List.find?_eq_none]
  intro p hp
  simpa using h p hp

/-- Claim C10: for every negative or too-large index, `get_snapshot`
returns the first loaded snapshot when one exists and `None` only when no
snapshots are loaded; the out-of-range index is never reported as an
error. -/
theorem claim_C10_get_snapshot (snapshots : List Snapshot) (index : Int)
    (h : index < 0 ∨ (snapshots.length : Int) ≤ index) :
    get_snapshot snapshots index = snapshots.head? ∧
    (snapshots = [] → get_snapshot snapshots index = none) ∧
    (∀ x xs, snapshots = x :: xs → get_snapshot snapshots index = some x) := by
  have hcond : ¬(snapshots ≠ [] ∧ 0 ≤ index ∧ index < (snapshots.length : Int)) := by
    rintro ⟨-, h0, hlt⟩
    rcases h with h | h <;> omega
  have hmain : get_snapshot snapshots index = snapshots.head? := by
    unfold get_snapshot
    rw [if_neg hcond]
  refine ⟨hmain, ?_, ?_⟩
  · intro he; rw [hmain, he]; rfl
  · intro x xs he; rw [hmain, he]; rfl

/-- Witness for C10 at concrete inputs: index -1 on a one-snapshot list
yields the first snapshot, index 5 on the empty list yields `None`. -/
theorem claim_C10_witness :
    get_snapshot [snapC4] (-1) = some snapC4 ∧ get_snapshot [] 5 = none :=
  ⟨(claim_C10_get_snapshot [snapC4] (-1) (Or.inl (by decide))).2.2 snapC4 [] rfl,
   (claim_C10_get_snapshot [] 5 (Or.inr (by decide))).2.1 rfl⟩

/-- Claim C9: on a non-empty champion store, `find_champion ""` returns a
champion record (never `None`), and — when, as in the real store, no key
is the empty string — it is exactly the first champion in iteration
order, reached through the bidirectional substring fallback. -/
theorem claim_C9_find_champion_empty (champions : List (String × Champ))
    (h : champions ≠ []) :
    (find_champion champions "").isSome = true ∧
    ((∀ p ∈ champions, p.1 ≠ "") →
      find_champion champions "" = champions.head?.map (fun p => p.2)) := by
  obtain ⟨⟨k, c⟩, rest, rfl⟩ : ∃ x xs, champions = x :: xs := by
    cases champions with
    | nil => exact absurd rfl h
    | cons x xs => exact ⟨x, xs, rfl⟩
  have key : ∀ l : List (String × Champ), find_champion l "" =
      match l.find? (fun p => p.1 == "") with
      | some p => some p.2
      | none => l.findSome? (fun p =>
          if strContains p.1 "" || strContains "" p.1 then some p.2
          else if pyLower p.2.name == pyLower "" then some p.2 else none) :=
    fun _ => rfl
  constructor
  · rw [key]
    cases hfind : ((k, c) :: rest).find? (fun p => p.1 == "") with
    | some p => rfl
    | none => simp [List.findSome?_cons, strContains_empty]
  · intro hkeys
    rw [key]
    have hfind : ((k, c) :: rest).find? (fun p => p.1 == "") = none := by
      rw [List.find?_eq_none]
      intro p hp
      simpa using hkeys p hp
    rw [hfind]
    simp [List.findSome?_cons, strContains_empty]

/-- Witness for C9: on the concrete two-champion store the empty name
returns the first champion. -/
theorem claim_C9_witness :
    find_champion champListC9 "" = some ⟨"Garen"⟩ := by
  have h := (claim_C9_find_champion_empty champListC9 (by decide)).2 (by decide)
  simpa using h

/-- Claim C5: `multi_criteria_champion_search` with every criterion group
absent (`None`) or empty (and `damage_type` absent or the falsy empty
string) returns `[]` for every state of the fact store. -/
theorem claim_C5_empty_criteria (st : SelectStore)
    (roles lanes cc_types effects playstyles power_curves win_conditions : Option (List String))
    (damage_type : Option String)
    (hr : roles.getD [] = []) (hl : lanes.getD [] = []) (hc : cc_types.getD [] = [])
    (he : effects.getD [] = []) (hp : playstyles.getD [] = [])
    (hpc : power_curves.getD [] = []) (hw : win_conditions.getD [] = [])
    (hd : damage_type.getD "" = "") :
    multi_criteria_champion_search st roles lanes cc_types effects playstyles
      power_curves win_conditions damage_type = [] := by
  have hpat : multi_criteria_patterns roles lanes cc_types effects playstyles
      power_curves win_conditions damage_type = [] := by
    unfold multi_criteria_patterns
    rw [hr, hl, hc, he, hp, hpc, hw]
    cases damage_type with
    | none => simp
    | some d =>
      have : d = "" := by simpa using hd
      simp [this]
  unfold multi_criteria_champion_search
  rw [hpat]
  rfl

/-- Witness for C5: all groups `None` on a concrete store. -/
theorem claim_C5_witness :
    multi_criteria_champion_search emptySelectStore none none none none none
      none none none = [] :=
  claim_C5_empty_criteria emptySelectStore none none none none none none none none
    rfl rfl rfl rfl rfl rfl rfl rfl

/-- Helper: the seven-band classification of `goldStateAssessment`, with
every boundary value landing on the Even-ward side. -/
theorem goldStateAssessment_band (d : Int) :
    (3000 < d → (goldStateAssessment d).2 = "Winning") ∧
    (1500 < d ∧ d ≤ 3000 → (goldStateAssessment d).2 = "Ahead") ∧
    (500 < d ∧ d ≤ 1500 → (goldStateAssessment d).2 = "Slightly Ahead") ∧
    (-500 ≤ d ∧ d ≤ 500 → (goldStateAssessment d).2 = "Even") ∧
    (-1500 ≤ d ∧ d < -500 → (goldStateAssessment d).2 = "Slightly Behind") ∧
    (-3000 ≤ d ∧ d < -1500 → (goldStateAssessment d).2 = "Behind") ∧
    (d < -3000 → (goldStateAssessment d).2 = "Losing") := by
  unfold goldStateAssessment
  refine ⟨?_, ?_, ?_, ?_, ?_, ?_, ?_⟩ <;> intro hd <;> split_ifs <;>
    first | rfl | omega

/-- Helper: the `game_state` and `team_gold_diff` fields that
`analyze_game_state` produces for a present user player. -/
theorem analyze_game_state_fields (s : Snapshot) (u : Player)
    (h : get_user_player s = some u) :
    gsDiffOf (analyze_game_state s) =
      (if u.team = "Blue" then s.gold_diff else -s.gold_diff) ∧
    gsStateOf (analyze_game_state s) =
      (goldStateAssessment (if u.team = "Blue" then s.gold_diff else -s.gold_diff)).2 := by
  unfold analyze_game_state
  rw [h]
  exact ⟨rfl, rfl⟩

/-- Claim C4: `analyze_game_state` classifies `game_state` by the
seven-band scheme with strict thresholds on the team gold differential,
negated when the user's team is not Blue; boundary values (±500, ±1500,
±3000) fall on the Even-ward side. -/
theorem claim_C4_game_state_banding (s : Snapshot) (u : Player)
    (h : get_user_player s = some u) :
    gsDiffOf (analyze_game_state s) =
      (if u.team = "Blue" then s.gold_diff else -s.gold_diff) ∧
    ((3000 < gsDiffOf (analyze_game_state s) →
        gsStateOf (analyze_game_state s) = "Winning") ∧
     (1500 < gsDiffOf (analyze_game_state s) ∧ gsDiffOf (analyze_game_state s) ≤ 3000 →
        gsStateOf (analyze_game_state s) = "Ahead") ∧
     (500 < gsDiffOf (analyze_game_state s) ∧ gsDiffOf (analyze_game_state s) ≤ 1500 →
        gsStateOf (analyze_game_state s) = "Slightly Ahead") ∧
     (-500 ≤ gsDiffOf (analyze_game_state s) ∧ gsDiffOf (analyze_game_state s) ≤ 500 →
        gsStateOf (analyze_game_state s) = "Even") ∧
     (-1500 ≤ gsDiffOf (analyze_game_state s) ∧ gsDiffOf (analyze_game_state s) < -500 →
        gsStateOf (analyze_game_state s) = "Slightly Behind") ∧
     (-3000 ≤ gsDiffOf (analyze_game_state s) ∧ gsDiffOf (analyze_game_state s) < -1500 →
        gsStateOf (analyze_game_state s) = "Behind") ∧
     (gsDiffOf (analyze_game_state s) < -3000 →
        gsStateOf (analyze_game_state s) = "Losing")) := by
  obtain ⟨hdiff, hstate⟩ := analyze_game_state_fields s u h
  refine ⟨hdiff, ?_⟩
  rw [hstate, hdiff]
  exact goldStateAssessment_band _

/-- Witness for C4: a Blue-side snapshot with `gold_diff = 3200` is
classified "Winning". -/
theorem claim_C4_witness :
    gsStateOf (analyze_game_state snapC4) = "Winning" :=
  (claim_C4_game_state_banding snapC4 userC4 (by decide)).2.1 (by decide)

/-- Counterexample to claim C2: at user gold 6000 vs lane-opponent gold
4500 (+1500), `_analyze_lane_matchup` reports `lane_state =
"Winning Hard"` (its `> 1000` band), not "Winning". -/
theorem claim_C2_counterexample :
    (analyze_lane_matchup userC2 oppC2 ⟨[], []⟩).lane_state = "Winning Hard" ∧
    userC2.total_gold = 6000 ∧ oppC2.total_gold = 4500 ∧
    ("Winning Hard" : String) ≠ "Winning" := by
  refine ⟨by decide, rfl, rfl, by decide⟩

/-- Claim C2 as amended: at user gold 6000 and opponent gold 4500 the lane
matchup reports `lane_state = "Winning Hard"`, for every opponent record
and counter list. -/
theorem claim_C2_amended (user opponent : Player) (user_counters : CounterLists)
    (hu : user.total_gold = 6000) (ho : opponent.total_gold = 4500) :
    (analyze_lane_matchup user opponent user_counters).lane_state = "Winning Hard" := by
  have hls : (analyze_lane_matchup user opponent user_counters).lane_state =
      (laneStateAdvice (user.total_gold - opponent.total_gold)).1 := rfl
  rw [hls, hu, ho]
  decide

/-- Witness for the amended C2 at concrete players. -/
theorem claim_C2_witness :
    (analyze_lane_matchup userC2 oppC2 ⟨["Darius"], []⟩).lane_state = "Winning Hard" :=
  claim_C2_amended userC2 oppC2 ⟨["Darius"], []⟩ rfl rfl

/-- Claim C1 (code behavior at the failing input): when no player has
`participant_id == 1`, the three phase analyses each return the
structured "User player not found in snapshot" error dictionary before
any further computation — but `full_analysis` does not: it feeds the
`None` user into `_generate_summary`, which evaluates
`None.get("champion", "Unknown")` and raises `AttributeError` out of
`full_analysis` instead of returning the structured error. -/
theorem claim_C1_missing_user (r : Retriever) (snaps : List Snapshot) (s : Snapshot)
    (h : ∀ p ∈ s.players, p.participant_id ≠ 1) :
    analyze_game_state s = PyResult.error "User player not found in snapshot" ∧
    analyze_item_recommendations r s = PyResult.error "User player not found in snapshot" ∧
    analyze_counter_strategies r s = PyResult.error "User player not found in snapshot" ∧
    full_analysis r snaps (some s) = Except.error noneGetMsg := by
  have hu := get_user_player_eq_none s h
  refine ⟨?_, ?_, ?_, ?_⟩
  · unfold analyze_game_state; rw [hu]
  · unfold analyze_item_recommendations; rw [hu]
  · unfold analyze_counter_strategies; rw [hu]
  · unfold full_analysis
    simp only [hu]

/-- Witness for C1 at a concrete snapshot whose only player has
`participant_id = 2`. -/
theorem claim_C1_witness :
    analyze_game_state snapNoUser = PyResult.error "User player not found in snapshot" ∧
    analyze_item_recommendations rTriv snapNoUser =
      PyResult.error "User player not found in snapshot" ∧
    analyze_counter_strategies rTriv snapNoUser =
      PyResult.error "User player not found in snapshot" ∧
    full_analysis rTriv [] (some snapNoUser) = Except.error noneGetMsg :=
  claim_C1_missing_user rTriv [] snapNoUser (by decide)

/-- Counterexample to claim C3: a failing `ASK` inside
`get_team_synergy_score` is not caught — the error propagates to the
engine's caller instead of being downgraded to an empty result. -/
theorem claim_C3_counterexample :
    get_team_synergy_score badSynergyAsk ["Ashe", "Leona"] =
      Except.error "SPARQL query error" := rfl

/-- Claim C3 as amended: failures of queries executed through
`SemanticQueryEngine.query` (all the SELECT-based operations) are caught
and degraded to an empty row list, but the ASK-based existence checks in
`get_team_synergy_score` and `recommend_pick` execute against the store
directly and their failures propagate to the caller. -/
theorem claim_C3_amended :
    (∀ (st : SelectStore) (q e : String),
      st.select q = Except.error e → engineQuery st q = []) ∧
    (∀ (st : SynergyAsk) (A B : String) (rest : List String) (e : String),
      st.askStrong A B = Except.error e →
      get_team_synergy_score st (A :: B :: rest) = Except.error e) ∧
    (∀ (st : RecommendStore) (lane enemy : String)
        (allies styles : Option (List String)) (row : SparqlRow) (e : String),
      enemy ≠ "" → st.select (lane_query lane) = Except.ok [row] →
      st.askCounter (row "name") enemy = Except.error e →
      recommend_pick st lane (some enemy) allies styles = Except.error e) := by
  refine ⟨?_, ?_, ?_⟩
  · intro st q e h
    unfold engineQuery
    rw [h]
  · intro st A B rest e h
    have hp : pairsOf (A :: B :: rest) =
        (A, B) :: (rest.map (fun c2 => (A, c2)) ++ pairsOf (B :: rest)) := by
      simp [pairsOf]
    unfold get_team_synergy_score
    rw [hp]
    unfold synergyFold
    rw [h]
  · intro st lane enemy allies styles row e hne hsel hask
    unfold recommend_pick engineQueryR
    rw [hsel]
    simp only [List.map_cons, List.map_nil]
    unfold pickCandidates pickScore
    simp only [if_neg hne]
    rw [hask]

/-- Witness for the amended C3 at concrete stores. -/
theorem claim_C3_witness :
    engineQuery badSelectStore "SELECT" = [] ∧
    get_team_synergy_score badSynergyAsk ("Ashe" :: "Leona" :: []) =
      Except.error "SPARQL query error" ∧
    recommend_pick pickStoreC3 "TopLane" (some "Zed") none none =
      Except.error "SPARQL query error" :=
  ⟨claim_C3_amended.1 badSelectStore "SELECT" "SPARQL query error" rfl,
   claim_C3_amended.2.1 badSynergyAsk "Ashe" "Leona" [] "SPARQL query error" rfl,
   claim_C3_amended.2.2 pickStoreC3 "TopLane" "Zed" none none (fun _ => "Garen")
     "SPARQL query error" (by decide) rfl rfl⟩

/-- Helper: the graph semantics of the synergy `ASK` is symmetric in the
two champion names — the query itself takes the `UNION` of both edge
directions. -/
theorem askEitherDir_symm (names : List (Nat × String)) (edges : List (Nat × Nat))
    (c1 c2 : String) :
    askEitherDir names edges c1 c2 = askEitherDir names edges c2 c1 := by
  rw [Bool.eq_iff_iff]
  simp only [askEitherDir, List.any_eq_true, Bool.and_eq_true, beq_iff_eq,
    Bool.or_eq_true]
  constructor
  · rintro ⟨p1, hp1, h1, p2, hp2, h2, hc⟩
    exact ⟨p2, hp2, h2, p1, hp1, h1, hc.symm⟩
  · rintro ⟨p1, hp1, h1, p2, hp2, h2, hc⟩
    exact ⟨p2, hp2, h2, p1, hp1, h1, hc.symm⟩

/-- Helper: on a graph-backed store no `ASK` raises, so the synergy fold
always succeeds. -/
theorem graph_synergyFold_ok (g : RdfGraph) :
    ∀ (pairs : List (String × String)) (ps : List (String × String × String)) (total : Nat),
    ∃ v, synergyFold (graphSynergyAsk g) pairs ps total = Except.ok v := by
  intro pairs
  induction pairs with
  | nil => exact fun ps total => ⟨(ps, total), rfl⟩
  | cons pr rest ih =>
    intro ps total
    obtain ⟨c1, c2⟩ := pr
    cases h1 : askEitherDir g.heroName g.strongSynergyWith c1 c2 with
    | true => simpa [synergyFold, graphSynergyAsk, h1] using ih _ _
    | false =>
      cases h2 : askEitherDir g.heroName g.synergyWith c1 c2 with
      | true => simpa [synergyFold, graphSynergyAsk, h1, h2] using ih _ _
      | false => simpa [synergyFold, graphSynergyAsk, h1, h2] using ih _ _

/-- Helper: the synergy score of a two-champion team on a graph-backed
store, in closed form. -/
theorem synergy_two (g : RdfGraph) (A B : String) :
    get_team_synergy_score (graphSynergyAsk g) [A, B] = Except.ok
      ⟨if askEitherDir g.heroName g.strongSynergyWith A B then [(A, B, "strong")]
        else if askEitherDir g.heroName g.synergyWith A B then [(A, B, "normal")] else [],
       if askEitherDir g.heroName g.strongSynergyWith A B then 3
        else if askEitherDir g.heroName g.synergyWith A B then 1 else 0,
       3⟩ := by
  have hp : pairsOf [A, B] = [(A, B)] := by simp [pairsOf]
  unfold get_team_synergy_score
  rw [hp]
  by_cases h1 : askEitherDir g.heroName g.strongSynergyWith A B
  · simp [synergyFold, graphSynergyAsk, h1]
  · by_cases h2 : askEitherDir g.heroName g.synergyWith A B
    · simp [synergyFold, graphSynergyAsk, h1, h2]
    · simp [synergyFold, graphSynergyAsk, h1, h2]

/-- Claim C6: on a graph-backed store, `get_team_synergy_score` yields
equal `total_score` and `max_possible` for `[A, B]` and `[B, A]`, and for
every team its `max_possible` is `n * (n - 1) / 2 * 3`. -/
theorem claim_C6_synergy_symmetry (g : RdfGraph) (A B : String) (team : List String) :
    (∃ v1 v2, get_team_synergy_score (graphSynergyAsk g) [A, B] = Except.ok v1 ∧
      get_team_synergy_score (graphSynergyAsk g) [B, A] = Except.ok v2 ∧
      v1.total_score = v2.total_score ∧ v1.max_possible = v2.max_possible) ∧
    (∃ v, get_team_synergy_score (graphSynergyAsk g) team = Except.ok v ∧
      v.max_possible = team.length * (team.length - 1) / 2 * 3) := by
  constructor
  · refine ⟨_, _, synergy_two g A B, synergy_two g B A, ?_, rfl⟩
    simp only
    rw [askEitherDir_symm g.heroName g.strongSynergyWith A B,
      askEitherDir_symm g.heroName g.synergyWith A B]
  · obtain ⟨⟨ps, total⟩, hfold⟩ := graph_synergyFold_ok g (pairsOf team) [] 0
    refine ⟨⟨ps, total, team.length * (team.length - 1) / 2 * 3⟩, ?_, rfl⟩
    unfold get_team_synergy_score
    rw [hfold]

/-- Helper: the first-occurrence deduplication leaves no duplicate item
names, and none of the names it keeps is in the seen set. -/
theorem dedupRecsAux_item_nodup (l : List ItemRec) :
    ∀ seen, ((dedupRecsAux seen l).map (fun rec => rec.item)).Nodup ∧
      ∀ x ∈ (dedupRecsAux seen l).map (fun rec => rec.item), x ∉ seen := by
  induction l with
  | nil => intro seen; simp [dedupRecsAux]
  | cons r rest ih =>
    intro seen
    by_cases h : r.item ∈ seen
    · simpa [dedupRecsAux, h] using ih seen
    · obtain ⟨hnd, hni⟩ := ih (r.item :: seen)
      simp only [dedupRecsAux, if_neg h, List.map_cons, List.nodup_cons, List.mem_cons]
      refine ⟨⟨?_, hnd⟩, ?_⟩
      · intro hx
        exact (hni _ hx) (List.mem_cons_self _ _)
      · rintro x (rfl | hx)
        · exact h
        · intro hxs
          exact (hni x hx) (List.mem_cons_of_mem _ hxs)

/-- Helper: the output shape of the dedup-sort-cap tail of the item
recommendation generator: distinct item names, sorted by (priority rank,
ascending gold cost), at most 8 entries. -/
theorem finalizeRecs_spec (l : List ItemRec) :
    ((finalizeRecs l).map (fun rec => rec.item)).Nodup ∧
    List.Pairwise recLe (finalizeRecs l) ∧ (finalizeRecs l).length ≤ 8 := by
  have hperm : (List.insertionSort recLe (dedupRecs l)).Perm (dedupRecs l) :=
    List.perm_insertionSort recLe (dedupRecs l)
  have hnd : ((List.insertionSort recLe (dedupRecs l)).map (fun rec => rec.item)).Nodup := by
    have := (hperm.map (fun rec => rec.item)).nodup_iff
    exact this.mpr (dedupRecsAux_item_nodup l []).1
  refine ⟨?_, ?_, ?_⟩
  · have hsub : ((finalizeRecs l).map (fun rec => rec.item)).Sublist
        ((List.insertionSort recLe (dedupRecs l)).map (fun rec => rec.item)) := by
      unfold finalizeRecs
      rw [List.map_take]
      exact List.take_sublist _ _
    exact hsub.nodup hnd
  · have hsorted : List.Pairwise recLe (List.insertionSort recLe (dedupRecs l)) :=
      List.sorted_insertionSort recLe (dedupRecs l)
    exact List.Pairwise.sublist (List.take_sublist _ _) hsorted
  · unfold finalizeRecs
    rw [List.length_take]
    exact Nat.min_le_left _ _

/-- Claim C8: for every input, the prioritized recommendation list has no
two entries with the same item name, is sorted by priority tier
(essential, core, situational, defensive — the `priOrd` ranks) and within
a tier by ascending gold cost, and has at most 8 entries. -/
theorem claim_C8_item_recommendations (r : Retriever) (champion_build : BuildInfo)
    (current_items : List String) (available_gold : Int)
    (enemy_analysis : EnemyAnalysis) (lane_opponent : Option (String × List String))
    (champ_info : ChampDetails) :
    ((generate_detailed_item_recommendations r champion_build current_items
        available_gold enemy_analysis lane_opponent champ_info).map
      (fun rec => rec.item)).Nodup ∧
    List.Pairwise recLe (generate_detailed_item_recommendations r champion_build
      current_items available_gold enemy_analysis lane_opponent champ_info) ∧
    (generate_detailed_item_recommendations r champion_build current_items
      available_gold enemy_analysis lane_opponent champ_info).length ≤ 8 := by
  unfold generate_detailed_item_recommendations
  exact finalizeRecs_spec _

/-- Helper: first-occurrence string deduplication yields a duplicate-free
list avoiding the seen set. -/
theorem dedupStrAux_nodup (l : List String) :
    ∀ seen, (dedupStrAux seen l).Nodup ∧ ∀ x ∈ dedupStrAux seen l, x ∉ seen := by
  induction l with
  | nil => intro seen; simp [dedupStrAux]
  | cons a rest ih =>
    intro seen
    by_cases h : a ∈ seen
    · simpa [dedupStrAux, h] using ih seen
    · obtain ⟨hnd, hni⟩ := ih (a :: seen)
      simp only [dedupStrAux, if_neg h, List.nodup_cons, List.mem_cons]
      refine ⟨⟨?_, hnd⟩, ?_⟩
      · intro hx
        exact (hni _ hx) (List.mem_cons_self _ _)
      · rintro x (rfl | hx)
        · exact h
        · intro hxs
          exact (hni x hx) (List.mem_cons_of_mem _ hxs)

/-- Helper: the per-enemy counter list carries no duplicate names (the
`SELECT DISTINCT`). -/
theorem countersOfGraph_nodup (g : RdfGraph) (enemy : String) :
    (countersOfGraph g enemy).Nodup :=
  (dedupStrAux_nodup _ []).1

/-- Helper: updating every entry with the matched key leaves any other
lookup unchanged and appends to the matched one. -/
theorem covLookup_mapUpdate (cn e X : String) (acc : List (String × List String)) :
    covLookup X (acc.map (fun p => if p.1 == cn then (p.1, p.2 ++ [e]) else p)) =
      if X = cn then (covLookup X acc).map (fun l => l ++ [e]) else covLookup X acc := by
  induction acc with
  | nil => by_cases h : X = cn <;> simp [covLookup, h]
  | cons p rest ih =>
    by_cases hpcn : p.1 = cn
    · by_cases hpX : p.1 = X
      · have hXcn : X = cn := hpX.symm.trans hpcn
        simp [covLookup, hpcn, hpX, hXcn]
      · simp only [List.map_cons, beq_iff_eq, if_pos hpcn, covLookup, if_neg hpX]
        simpa using ih
    · by_cases hpX : p.1 = X
      · have hXcn : ¬ X = cn := fun hxc => hpcn (hpX.trans hxc)
        simp [covLookup, hpcn, hpX, hXcn]
      · simp only [List.map_cons, beq_iff_eq, if_neg hpcn, covLookup, if_neg hpX]
        simpa using ih

/-- Helper: a key that some entry carries has a successful lookup. -/
theorem covLookup_isSome_of_any (acc : List (String × List String)) (cn : String)
    (h : acc.any (fun p => p.1 == cn) = true) : ∃ l, covLookup cn acc = some l := by
  induction acc with
  | nil => simp at h
  | cons p rest ih =>
    by_cases hp : p.1 = cn
    · exact ⟨p.2, by simp [covLookup, hp]⟩
    · have : rest.any (fun p => p.1 == cn) = true := by
        simpa [List.any_cons, hp] using h
      obtain ⟨l, hl⟩ := ih this
      exact ⟨l, by simp [covLookup, hp, hl]⟩

/-- Helper: a key no entry carries has a failing lookup. -/
theorem covLookup_eq_none_of_not_any (acc : List (String × List String)) (cn : String)
    (h : acc.any (fun p => p.1 == cn) = false) : covLookup cn acc = none := by
  induction acc with
  | nil => rfl
  | cons p rest ih =>
    simp only [List.any_cons, Bool.or_eq_false_iff, beq_eq_false_iff_ne] at h
    simp [covLookup, h.1, ih (by simpa using h.2)]

/-- Helper: appending a fresh single-enemy entry affects only lookups of
its key, and only when the key was absent. -/
theorem covLookup_append_single (acc : List (String × List String)) (cn e X : String) :
    covLookup X (acc ++ [(cn, [e])]) =
      match covLookup X acc with
      | some l => some l
      | none => if X = cn then some [e] else none := by
  induction acc with
  | nil =>
    show (if cn = X then some [e] else none) = (if X = cn then some [e] else none)
    by_cases h : cn = X
    · rw [if_pos h, if_pos h.symm]
    · rw [if_neg h, if_neg (fun hx => h hx.symm)]
  | cons p rest ih =>
    by_cases hp : p.1 = X
    · simp [covLookup, hp]
    · simp only [List.cons_append, covLookup, if_neg hp]
      exact ih

/-- Helper: how `addCover` changes a lookup — the matched key's entry
gains the enemy at the end (an absent key's entry starts at `[enemy]`),
every other entry is untouched. -/
theorem covLookup_addCover (acc : List (String × List String)) (cn e X : String) :
    covLookup X (addCover acc cn e) =
      if X = cn then some ((covLookup X acc).getD [] ++ [e]) else covLookup X acc := by
  unfold addCover
  by_cases hany : acc.any (fun p => p.1 == cn) = true
  · rw [if_pos hany, covLookup_mapUpdate]
    by_cases hX : X = cn
    · obtain ⟨l, hl⟩ := covLookup_isSome_of_any acc cn hany
      rw [if_pos hX, if_pos hX, hX, hl]
      rfl
    · rw [if_neg hX, if_neg hX]
  · have hany2 : acc.any (fun p => p.1 == cn) = false := Bool.eq_false_iff.mpr hany
    rw [if_neg hany, covLookup_append_single]
    by_cases hX : X = cn
    · have hnone : covLookup X acc = none :=
        hX ▸ covLookup_eq_none_of_not_any acc cn hany2
      rw [hnone]
      simp [hX]
    · cases hacc : covLookup X acc with
      | some l => simp [hX]
      | none => simp [hX]

/-- Helper: folding one enemy's duplicate-free counter list appends that
enemy once to each listed champion's entry and leaves the others
alone. -/
theorem covLookup_innerFold (e X : String) :
    ∀ (cs : List String), cs.Nodup → ∀ (acc : List (String × List String)),
    covLookup X (cs.foldl (fun a cn => addCover a cn e) acc) =
      if X ∈ cs then some ((covLookup X acc).getD [] ++ [e]) else covLookup X acc := by
  intro cs
  induction cs with
  | nil => intro _ acc; simp
  | cons c rest ih =>
    intro hnd acc
    have hndr : rest.Nodup := (List.nodup_cons.mp hnd).2
    have hcr : c ∉ rest := (List.nodup_cons.mp hnd).1
    rw [List.foldl_cons, ih hndr]
    by_cases hXc : X = c
    · have hXr : X ∉ rest := hXc ▸ hcr
      rw [if_neg hXr, covLookup_addCover, if_pos hXc,
        if_pos (List.mem_cons.mpr (Or.inl hXc))]
    · rw [covLookup_addCover, if_neg hXc]
      by_cases hXr : X ∈ rest
      · rw [if_pos hXr, if_pos (List.mem_cons.mpr (Or.inr hXr))]
      · rw [if_neg hXr, if_neg (by simp [hXc, hXr])]

/-- Helper: `covCombine` on a present entry is a plain append. -/
theorem covCombine_some (l0 l : List String) :
    covCombine (some l0) l = some (l0 ++ l) := rfl

/-- Helper: `covCombine` with no further hits changes nothing. -/
theorem covCombine_nil (o : Option (List String)) : covCombine o [] = o := by
  cases o with
  | none => rfl
  | some l0 => simp [covCombine_some]

/-- Helper: absorbing one hit into the accumulator commutes with
`covCombine`. -/
theorem covCombine_cons (o : Option (List String)) (en : String) (l : List String) :
    covCombine o (en :: l) = covCombine (some (o.getD [] ++ [en])) l := by
  cases o with
  | none =>
    cases l with
    | nil => rfl
    | cons b bs => rfl
  | some l0 => simp [covCombine_some, List.append_assoc]

/-- Helper: the full enemy fold of `get_team_counter_coverage` gives each
champion exactly the enemies (in input order) whose counter list names
it, appended to whatever the accumulator already held. -/
theorem covLookup_outerFold (f : String → List String)
    (hf : ∀ e, (f e).Nodup) (X : String) :
    ∀ (enemies : List String) (acc : List (String × List String)),
    covLookup X (enemies.foldl (fun acc enemy =>
        (f enemy).foldl (fun a cn => addCover a cn enemy) acc) acc) =
      covCombine (covLookup X acc) (enemies.filter (fun e => decide (X ∈ f e))) := by
  intro enemies
  induction enemies with
  | nil => intro acc; rw [List.foldl_nil, List.filter_nil, covCombine_nil]
  | cons en rest ih =>
    intro acc
    rw [List.foldl_cons, ih, covLookup_innerFold en X (f en) (hf en), List.filter_cons]
    by_cases hmem : X ∈ f en
    · rw [if_pos hmem, if_pos (by simpa using hmem), covCombine_cons]
    · rw [if_neg hmem, if_neg (by simpa using hmem)]

/-- Helper: `addCover` keeps the coverage dictionary's keys
duplicate-free. -/
theorem addCover_keys_nodup (acc : List (String × List String)) (cn e : String)
    (h : (acc.map Prod.fst).Nodup) : ((addCover acc cn e).map Prod.fst).Nodup := by
  unfold addCover
  by_cases hany : acc.any (fun p => p.1 == cn) = true
  · rw [if_pos hany]
    have hkeys : (acc.map (fun p => if p.1 == cn then (p.1, p.2 ++ [e]) else p)).map
        Prod.fst = acc.map Prod.fst := by
      rw [List.map_map]
      apply List.map_congr_left
      intro p _
      by_cases hc : p.1 = cn <;> simp [hc]
    rw [hkeys]
    exact h
  · have hany2 : acc.any (fun p => p.1 == cn) = false := Bool.eq_false_iff.mpr hany
    rw [if_neg hany, List.map_append, List.nodup_append]
    refine ⟨h, by simp, ?_⟩
    intro a ha hb
    have hacn : a = cn := by simpa using hb
    subst hacn
    rw [List.any_eq_false] at hany2
    obtain ⟨p, hp, hpa⟩ := List.mem_map.mp ha
    exact hany2 p hp (by simp [hpa])

/-- Helper: the inner counter fold keeps the keys duplicate-free. -/
theorem innerFold_keys_nodup (e : String) :
    ∀ (cs : List String) (acc : List (String × List String)),
    (acc.map Prod.fst).Nodup →
    ((cs.foldl (fun a cn => addCover a cn e) acc).map Prod.fst).Nodup := by
  intro cs
  induction cs with
  | nil => intro acc h; simpa using h
  | cons c rest ih =>
    intro acc h
    rw [List.foldl_cons]
    exact ih _ (addCover_keys_nodup acc c e h)

/-- Helper: the outer enemy fold keeps the keys duplicate-free. -/
theorem outerFold_keys_nodup (f : String → List String) :
    ∀ (enemies : List String) (acc : List (String × List String)),
    (acc.map Prod.fst).Nodup →
    ((enemies.foldl (fun acc enemy =>
        (f enemy).foldl (fun a cn => addCover a cn enemy) acc) acc).map Prod.fst).Nodup := by
  intro enemies
  induction enemies with
  | nil => intro acc h; simpa using h
  | cons en rest ih =>
    intro acc h
    rw [List.foldl_cons]
    exact ih _ (innerFold_keys_nodup en (f en) acc h)

/-- Helper: on a duplicate-free-keyed dictionary, membership of a pair is
exactly a successful lookup. -/
theorem mem_iff_covLookup (X : String) (l : List String) :
    ∀ (acc : List (String × List String)), (acc.map Prod.fst).Nodup →
    ((X, l) ∈ acc ↔ covLookup X acc = some l) := by
  intro acc
  induction acc with
  | nil => intro _; simp [covLookup]
  | cons p rest ih =>
    intro hnd
    obtain ⟨p1, p2⟩ := p
    rw [List.map_cons, List.nodup_cons] at hnd
    obtain ⟨hpk, hndr⟩ := hnd
    by_cases hp : p1 = X
    · subst hp
      have hlook : covLookup p1 ((p1, p2) :: rest) = some p2 := by simp [covLookup]
      rw [hlook]
      simp only [List.mem_cons, Option.some.injEq]
      constructor
      · rintro (heq | hmem)
        · injection heq with _ h2
          exact h2.symm
        · exact absurd (List.mem_map.mpr ⟨(p1, l), hmem, rfl⟩) hpk
      · intro heq
        exact Or.inl (by rw [heq])
    · have hlook : covLookup X ((p1, p2) :: rest) = covLookup X rest := by
        simp [covLookup, hp]
      rw [hlook, ← ih hndr]
      simp only [List.mem_cons]
      constructor
      · rintro (heq | hmem)
        · injection heq with h1 _
          exact absurd h1.symm hp
        · exact hmem
      · exact Or.inr

/-- Counterexample to claim C7: with the same enemy listed twice, the
covering champion's entry lists it twice — the entry is not free of
duplicates as the claim states for every enemy list. -/
theorem claim_C7_counterexample :
    get_team_counter_coverage (countersOfGraph gC7) ["E", "E"] = [("X", ["E", "E"])] ∧
    ¬ (["E", "E"] : List String).Nodup := by
  refine ⟨by decide, by decide⟩

/-- Claim C7 as amended: restricted to duplicate-free enemy lists (the
counterexample's duplicated input forces the restriction), the coverage
map has duplicate-free keys, is sorted by descending coverage length, and
maps a champion X to exactly the duplicate-free sublist, in input order,
of the enemies whose counter query names X — with an entry present
exactly when that sublist is non-empty. -/
theorem claim_C7_amended (g : RdfGraph) (enemies : List String)
    (hnd : enemies.Nodup) :
    ((get_team_counter_coverage (countersOfGraph g) enemies).map Prod.fst).Nodup ∧
    List.Pairwise covGe (get_team_counter_coverage (countersOfGraph g) enemies) ∧
    (∀ X l, ((X, l) ∈ get_team_counter_coverage (countersOfGraph g) enemies ↔
      (l = enemies.filter (fun e => decide (X ∈ countersOfGraph g e)) ∧ l ≠ []))) ∧
    (∀ X l, (X, l) ∈ get_team_counter_coverage (countersOfGraph g) enemies →
      l.Nodup) := by
  have hcov : get_team_counter_coverage (countersOfGraph g) enemies =
      List.insertionSort covGe (enemies.foldl (fun acc enemy =>
        (countersOfGraph g enemy).foldl (fun a cn => addCover a cn enemy) acc) []) := rfl
  set cov := enemies.foldl (fun acc enemy =>
    (countersOfGraph g enemy).foldl (fun a cn => addCover a cn enemy) acc)
    ([] : List (String × List String)) with hcovdef
  have hperm : (List.insertionSort covGe cov).Perm cov := List.perm_insertionSort _ _
  have hkeys : (cov.map Prod.fst).Nodup :=
    outerFold_keys_nodup (countersOfGraph g) enemies [] (by simp)
  have hlook : ∀ X, covLookup X cov =
      covCombine none (enemies.filter (fun e => decide (X ∈ countersOfGraph g e))) :=
    fun X => covLookup_outerFold (countersOfGraph g)
      (fun e => countersOfGraph_nodup g e) X enemies []
  have hmemc : ∀ X l, ((X, l) ∈ cov ↔
      (l = enemies.filter (fun e => decide (X ∈ countersOfGraph g e)) ∧ l ≠ [])) := by
    intro X l
    rw [mem_iff_covLookup X l cov hkeys, hlook X]
    cases hfil : enemies.filter (fun e => decide (X ∈ countersOfGraph g e)) with
    | nil =>
      rw [covCombine_nil]
      constructor
      · intro h; cases h
      · rintro ⟨hl, hne⟩
        exact absurd hl hne
    | cons b bs =>
      have hcc : covCombine none (b :: bs) = some (b :: bs) := rfl
      rw [hcc]
      constructor
      · intro h
        injection h with h2
        exact ⟨h2.symm, by simp [h2.symm]⟩
      · rintro ⟨hl, -⟩
        rw [hl]
  refine ⟨?_, ?_, ?_, ?_⟩
  · rw [hcov]
    exact ((hperm.map Prod.fst).nodup_iff).mpr hkeys
  · rw [hcov]
    exact List.sorted_insertionSort covGe cov
  · intro X l
    rw [hcov, hperm.mem_iff]
    exact hmemc X l
  · intro X l hmem
    rw [hcov, hperm.mem_iff, hmemc X l] at hmem
    rw [hmem.1]
    exact List.Nodup.filter _ hnd

/-- Witness for the amended C7: on the concrete graph, champion "X"
covers exactly the single listed enemy "E". -/
theorem claim_C7_witness :
    ("X", ["E"]) ∈ get_team_counter_coverage (countersOfGraph gC7) ["E"] := by
  have h := claim_C7_amended gC7 ["E"] (by decide)
  exact (h.2.2.1 "X" ["E"]).mpr (by decide)
